import Mathlib

/-!
The NNTP peering core of package `srnd` (`nntp.go`, `store.go`).

A shallow embedding of the connection state machine of package `srnd`:
the header filter `checkMIMEHeader`, the line dispatcher `handleLine`,
the handshake functions and the connection driver, over an explicit
state (connection fields, daemon, socket).

Conventions of the embedding.

* A Go `string` is a Lean `String` read as a sequence of bytes, one
  character per byte: `len(s)` is `s.length`, `s[4:]` drops four
  characters, `strings.Split` cuts at a separator byte.
* A Go `error` is `Option Error`, `none` being `nil`.
* `log.Println` / `log.Printf` write to the process log only and are left out.
* A channel is the list of values sent on it, oldest first; a send appends.
  The task on the receiving side is not part of the sequential model.
* `go f(...)` is recorded in the list of started tasks.
-/

namespace Srnd

/-! ## Strings -/

/-- Pieces of a byte sequence cut at every occurrence of `sep`. -/
def splitChars (sep : Char) : List Char → List (List Char)
  | [] => [[]]
  | c :: cs =>
    if c = sep then [] :: splitChars sep cs
    else
      match splitChars sep cs with
      | [] => [[c]]
      | p :: ps => (c :: p) :: ps

/-- Go `strings.Split(s, sep)` for a one-byte separator. -/
def Split (s : String) (sep : Char) : List String :=
  (splitChars sep s.data).map String.mk

/-- Go `strings.HasPrefix(s, p)`. -/
def HasPrefix (s p : String) : Bool :=
  p.data.isPrefixOf s.data

/-- Go `strings.ToUpper` on ASCII letters (the only arguments in this package
are the literals `"STREAM"` and `"READER"`). -/
def ToUpper (s : String) : String :=
  String.mk (s.data.map Char.toUpper)

/-- Go slice expression `s[n:]`; `none` is the run-time panic for `n > len(s)`. -/
def sliceFrom (s : String) (n : Nat) : Option String :=
  if n ≤ s.length then some (String.mk (s.data.drop n)) else none

/-- Element `i` of a slice of strings that is known to be long enough
(the empty string stands in outside the range, which no caller reaches). -/
def nth (parts : List String) (i : Nat) : String :=
  parts.getD i ""

/-! ## Errors -/

/-- A non-nil Go `error`, identified by its message. -/
structure Error where
  msg : String
  deriving DecidableEq, Repr

/-- Go `io.EOF`. -/
def ioEOF : Error := ⟨"EOF"⟩

/-- Go `io.ErrUnexpectedEOF`. -/
def ioErrUnexpectedEOF : Error := ⟨"unexpected EOF"⟩

/-- Error of an operation on a socket that was closed locally. -/
def errClosed : Error := ⟨"use of closed network connection"⟩

/-! ## MIME headers (`net/textproto`) -/

/-- Go `textproto.MIMEHeader`, a map from key to list of values, as an
association list with one entry per key. -/
abbrev MIMEHeader := List (String × List String)

/-- Bytes allowed in a header field name (RFC 7230 token bytes). -/
def validHeaderFieldByte (c : Char) : Bool :=
  c.isAlphanum || c ∈ ['!', '#', '$', '%', '&', Char.ofNat 39, '*', '+', '-', '.',
    '^', '_', Char.ofNat 96, '|', '~']

/-- Worker of `CanonicalMIMEHeaderKey`: `upper` says whether the next letter starts a word. -/
def canonicalChars : Bool → List Char → List Char
  | _, [] => []
  | upper, c :: cs =>
    (if upper then c.toUpper else c.toLower) :: canonicalChars (c = '-') cs

/-- Go `textproto.CanonicalMIMEHeaderKey`: the first letter and every letter
after a hyphen upper case, the rest lower case; a key holding a byte that is
not a token byte is returned unchanged. -/
def CanonicalMIMEHeaderKey (k : String) : String :=
  if k.data.all validHeaderFieldByte then String.mk (canonicalChars true k.data) else k

/-- Map lookup `hdr[k]`. -/
def MIMEHeader.lookup (hdr : MIMEHeader) (k : String) : Option (List String) :=
  (hdr.find? (fun e => e.1 = k)).map (·.2)

/-- Go `hdr.Get(key)`: the first value stored under the canonical form of
`key`, or `""`. -/
def MIMEHeader.Get (hdr : MIMEHeader) (key : String) : String :=
  match hdr.lookup (CanonicalMIMEHeaderKey key) with
  | some (v :: _) => v
  | _ => ""

/-- Map assignment `hdr[k] = vals` (the key is used as written). -/
def MIMEHeader.set (hdr : MIMEHeader) (k : String) (vals : List String) : MIMEHeader :=
  if hdr.any (fun e => e.1 = k) then
    hdr.map (fun e => if e.1 = k then (k, vals) else e)
  else hdr ++ [(k, vals)]

/-- Go `hdr[k] = append(hdr[k], v)`. -/
def MIMEHeader.add (hdr : MIMEHeader) (k v : String) : MIMEHeader :=
  hdr.set k ((hdr.lookup k).getD [] ++ [v])

/-! ## The parts of package `srnd` outside the embedded files -/

/-- Package-level functions of `srnd` that the embedded files call but do not
define; they are parameters of the embedding. -/
structure Util where
  /-- Go `ValidMessageID(id)`. -/
  ValidMessageID : String → Bool
  /-- Go `newsgroupValidFormat(group)`. -/
  newsgroupValidFormat : String → Bool
  /-- Go `genMessageID(instance_name)`, the id it yields at the call under study. -/
  genMessageID : String → String
  /-- Go `timeNow()`. -/
  timeNow : Int

/-- A row of `GetPostsInGroup`: the accessors the XOVER handler calls on a post model. -/
structure PostModel where
  Subject : String
  Name : String
  Frontend : String
  Date : String
  MessageID : String
  Reference : String
  deriving DecidableEq, Repr

/-- Modelled from the spec: the `Database` type (database.go is not among the
source files). Queries are fields giving their result in the current state;
the ban index is the list of persisted ban records `(message-id, reason)`,
newest first. -/
structure Database where
  /-- Go `NewsgroupBanned(group) (bool, error)`. -/
  NewsgroupBanned : String → Bool × Option Error
  /-- The persisted ban records. -/
  bans : List (String × String)
  /-- Go `HasArticleLocal(msgid) bool`. -/
  HasArticleLocal : String → Bool
  /-- Go `HasArticle(msgid) bool`. -/
  HasArticle : String → Bool
  /-- Go `CheckEncIPBanned(encaddr) (bool, error)`. -/
  CheckEncIPBanned : String → Bool × Option Error
  /-- Go `IsExpired(msgid) bool`. -/
  IsExpired : String → Bool
  /-- Go `HasNewsgroup(group) bool`. -/
  HasNewsgroup : String → Bool
  /-- Go `CountPostsInGroup(group, time) int64`. -/
  CountPostsInGroup : String → Int → Int
  /-- Go `GetLastAndFirstForGroup(group) (int64, int64, error)`. -/
  GetLastAndFirstForGroup : String → Int × Int × Option Error
  /-- Go `GetAllNewsgroups() []string`. -/
  GetAllNewsgroups : List String
  /-- Go `GetPostsInGroup(group) ([]PostModel, error)`. -/
  GetPostsInGroup : String → List PostModel × Option Error

/-- Modelled from the spec: `ArticleBanned(msgid)` of the absent database.go,
true when a ban record for `msgid` is persisted. -/
def Database.ArticleBanned (db : Database) (msgid : String) : Bool :=
  db.bans.any (fun b => b.1 = msgid)

/-- Modelled from the spec: `BanArticle(msgid, reason)` of the absent
database.go persists a ban record for `msgid` with the reason. -/
def Database.BanArticle (db : Database) (msgid reason : String) : Database × Option Error :=
  ({ db with bans := (msgid, reason) :: db.bans }, none)

/-! ## Article store (`store.go`) -/

/-- A sink handed out by `CreateTempFile`: the id it was created for, the
lines written so far, and whether `Close` was called. -/
structure TempFile where
  msgid : String
  content : List String
  closed : Bool
  deriving DecidableEq, Repr

/-- Go `ArticleStore`: the store directory, with the regular files under it
(path and lines) and the sinks handed out so far. -/
structure ArticleStore where
  directory : String
  files : List (String × List String)
  temp : List TempFile
  deriving DecidableEq, Repr

/-- Go `ArticleStore.GetFilename`: `filepath.Join(self.directory, messageID)`
(for ids without path separators). -/
def ArticleStore.GetFilename (self : ArticleStore) (messageID : String) : String :=
  self.directory ++ "/" ++ messageID

/-- Modelled from the spec: `CheckFile(fname)` of the absent util.go, the
presence of a file of that name. -/
def ArticleStore.CheckFile (self : ArticleStore) (fname : String) : Bool :=
  self.files.any (fun f => f.1 = fname)

/-- Go `ArticleStore.HasArticle`. -/
def ArticleStore.HasArticle (self : ArticleStore) (messageID : String) : Bool :=
  self.CheckFile (self.GetFilename messageID)

/-- Go `os.Open(fname)` followed by reading the file: its lines, or the error. -/
def ArticleStore.Open (self : ArticleStore) (fname : String) : Except Error (List String) :=
  match self.files.find? (fun f => f.1 = fname) with
  | some f => .ok f.2
  | none => .error ⟨"open " ++ fname ++ ": no such file or directory"⟩

/-- Modelled from the spec: `CreateTempFile(msgid)` is not in store.go. It hands
out a writable sink for `msgid`, or `nil` (the Busy sentinel, `none`) when a
sink for the same id is still live. -/
def ArticleStore.CreateTempFile (self : ArticleStore) (msgid : String) : Option ArticleStore :=
  if self.temp.any (fun t => t.msgid = msgid && !t.closed) then none
  else some { self with temp := ⟨msgid, [], false⟩ :: self.temp }

/-- Writing lines to the live sink of `msgid`. -/
def ArticleStore.writeTemp (self : ArticleStore) (msgid : String) (lines : List String) :
    ArticleStore :=
  { self with temp := self.temp.map (fun t =>
      if t.msgid = msgid && !t.closed then { t with content := t.content ++ lines } else t) }

/-- Go `f.Close()` on the live sink of `msgid`. -/
def ArticleStore.closeTemp (self : ArticleStore) (msgid : String) : ArticleStore :=
  { self with temp := self.temp.map (fun t =>
      if t.msgid = msgid && !t.closed then { t with closed := true } else t) }

/-! ## The socket (`textproto.Conn`) -/

/-- A `textproto.Conn`: the lines the peer has sent and that are not yet
read, the lines written to the peer, whether the socket was closed locally,
and whether a `DotReader` is open and not read to its end. Lines are kept
without their CRLF. -/
structure Conn where
  input : List String
  output : List String
  closed : Bool
  dot : Bool
  deriving DecidableEq, Repr

/-- Undo dot-stuffing of one line of a dot-encoded block. -/
def unstuff (l : String) : String :=
  match l.data with
  | '.' :: rest => String.mk rest
  | _ => l

/-- Dot-stuff one line for a dot-encoded block. -/
def stuff (l : String) : String :=
  match l.data with
  | '.' :: _ => "." ++ l
  | _ => l

/-- Lines of a dot-encoded block at the head of `input`: the decoded lines
and the input after the terminating `"."`, or `none` for the rest when the
input ends before the terminator. -/
def dotBlock : List String → List String × Option (List String)
  | [] => ([], none)
  | l :: rest =>
    if l = "." then ([], some rest)
    else
      let r := dotBlock rest
      (unstuff l :: r.1, r.2)

/-- Reading an open `DotReader` to its end (`io.Copy` from it): the decoded
lines and the error, `nil` at the regular end of the block. -/
def Conn.readDot (c : Conn) : List String × Option Error × Conn :=
  if c.closed then ([], some errClosed, { c with dot := false })
  else
    match dotBlock c.input with
    | (ls, some rest) => (ls, none, { c with input := rest, dot := false })
    | (ls, none) => (ls, some ioErrUnexpectedEOF, { c with input := [], dot := false })

/-- The `closeDot` that textproto runs before every read: an open `DotReader`
is drained first. -/
def Conn.closeDot (c : Conn) : Conn :=
  if c.dot then (c.readDot).2.2 else c

/-- Go `conn.DotReader()`. -/
def Conn.DotReader (c : Conn) : Conn :=
  { c.closeDot with dot := true }

/-- Go `conn.PrintfLine(...)` with the formatted line `s`. -/
def Conn.PrintfLine (c : Conn) (s : String) : Conn × Option Error :=
  if c.closed then (c, some errClosed)
  else ({ c with output := c.output ++ [s] }, none)

/-- A `conn.DotWriter()` written with `lines` and closed. -/
def Conn.writeDot (c : Conn) (lines : List String) : Conn × Option Error :=
  if c.closed then (c, some errClosed)
  else ({ c with output := c.output ++ lines.map stuff ++ ["."] }, none)

/-- Go `conn.Close()`. -/
def Conn.Close (c : Conn) : Conn :=
  { c with closed := true }

/-- Go `conn.ReadLine()`. -/
def Conn.ReadLine (c : Conn) : String × Option Error × Conn :=
  let c := c.closeDot
  if c.closed then ("", some errClosed, c)
  else
    match c.input with
    | [] => ("", some ioEOF, c)
    | l :: rest => (l, none, { c with input := rest })

/-- Leading blanks and tabs removed. -/
def trimLeft (l : List Char) : List Char :=
  l.dropWhile (fun c => c = ' ' || c = '\t')

/-- Leading and trailing blanks and tabs removed. -/
def trim (l : List Char) : List Char :=
  (trimLeft (trimLeft l).reverse).reverse

/-- One header line `Key: value` as textproto splits it: the canonical key
(blanks before the colon dropped) and the value (blanks after the colon
dropped); `none` when the line has no colon. -/
def headerLine (kv : List Char) : Option (String × String) :=
  if ':' ∈ kv then
    let key := ((kv.takeWhile (fun c => c ≠ ':')).reverse.dropWhile (fun c => c = ' ')).reverse
    let value := trimLeft ((kv.dropWhile (fun c => c ≠ ':')).drop 1)
    some (CanonicalMIMEHeaderKey (String.mk key), String.mk value)
  else none

/-- Loop of `ReadMIMEHeader` over the unread lines: header lines are added to
the map until a blank line; the map so far is returned with the error when
the input ends or a line is malformed. Folded (continuation) lines are not
modelled. -/
def readHeaderLines : List String → MIMEHeader → MIMEHeader × Option Error × List String
  | [], m => (m, some ioEOF, [])
  | l :: rest, m =>
    if trim l.data = [] then (m, none, rest)
    else
      match headerLine (trim l.data) with
      | none => (m, some ⟨"malformed MIME header line: " ++ String.mk (trim l.data)⟩, rest)
      | some kv => readHeaderLines rest (m.add kv.1 kv.2)

/-- Go `conn.ReadMIMEHeader()`. -/
def Conn.ReadMIMEHeader (c : Conn) : MIMEHeader × Option Error × Conn :=
  let c := c.closeDot
  if c.closed then ([], some errClosed, c)
  else
    let r := readHeaderLines c.input []
    (r.1, r.2.1, { c with input := r.2.2 })

/-! ## Integers in text (`strconv`) -/

/-- Value of a run of decimal digits, `none` when a byte is not a digit. -/
def digitsVal : List Char → Nat → Option Nat
  | [], acc => some acc
  | c :: cs, acc => if c.isDigit then digitsVal cs (acc * 10 + (c.toNat - 48)) else none

/-- Decimal integer syntax of `strconv`: an optional sign and at least one digit. -/
def parseDecimal (s : List Char) : Option Int :=
  match s with
  | [] => none
  | '+' :: ds => if ds = [] then none else (digitsVal ds 0).map Int.ofNat
  | '-' :: ds => if ds = [] then none else (digitsVal ds 0).map (fun n => - Int.ofNat n)
  | ds => (digitsVal ds 0).map Int.ofNat

/-- Go `strconv.ParseInt(s, 10, 32)`: the value, or `none` for a syntax or
range error. -/
def ParseInt32 (s : String) : Option Int :=
  match parseDecimal s.data with
  | some v => if -2147483648 ≤ v ∧ v ≤ 2147483647 then some v else none
  | none => none

/-- Go `strconv.Atoi(s)` on the three-byte code of a status line. -/
def Atoi (s : String) : Option Int :=
  parseDecimal s.data

/-- The `parseCodeLine` of textproto: code, continuation flag, message, error. -/
def parseCodeLine (line : String) (expectCode : Int) : Int × Bool × String × Option Error :=
  if line.length < 4 ∨ (line.data.getD 3 ' ' ≠ ' ' ∧ line.data.getD 3 ' ' ≠ '-') then
    (0, false, "", some ⟨"short response: " ++ line⟩)
  else
    let continued := line.data.getD 3 ' ' = '-'
    match Atoi (String.mk (line.data.take 3)) with
    | none => (0, continued, "", some ⟨"invalid response code: " ++ line⟩)
    | some code =>
      if code < 100 then (code, continued, "", some ⟨"invalid response code: " ++ line⟩)
      else
        let message := String.mk (line.data.drop 4)
        if (1 ≤ expectCode ∧ expectCode < 10 ∧ code / 100 ≠ expectCode) ∨
            (10 ≤ expectCode ∧ expectCode < 100 ∧ code / 10 ≠ expectCode) ∨
            (100 ≤ expectCode ∧ expectCode < 1000 ∧ code ≠ expectCode) then
          (code, continued, message, some ⟨toString code ++ " " ++ message⟩)
        else (code, continued, message, none)

/-- Go `conn.ReadCodeLine(expectCode)`: code, message, error. -/
def Conn.ReadCodeLine (c : Conn) (expectCode : Int) : Int × String × Option Error × Conn :=
  match c.ReadLine with
  | (_, some e, c1) => (0, "", some e, c1)
  | (line, none, c1) =>
    match parseCodeLine line expectCode with
    | (code, true, message, none) =>
      (code, message, some ⟨"unexpected multi-line response: " ++ message⟩, c1)
    | (code, _, message, err) => (code, message, err, c1)

/-! ## Connection and daemon state (`nntp.go`) -/

/-- Go `type nntpStreamEvent string`. -/
abbrev nntpStreamEvent := String

/-- Go `nntpStreamEvent.MessageID`; `none` is the index panic of `[1]`. -/
def nntpStreamEvent.MessageID (ev : nntpStreamEvent) : Option String :=
  (Split ev ' ').get? 1

/-- Go `nntpStreamEvent.Command`. -/
def nntpStreamEvent.Command (ev : nntpStreamEvent) : String :=
  nth (Split ev ' ') 0

/-- Go `nntpTAKETHIS`. -/
def nntpTAKETHIS (msgid : String) : nntpStreamEvent :=
  "TAKETHIS " ++ msgid

/-- Go `nntpCHECK`. -/
def nntpCHECK (msgid : String) : nntpStreamEvent :=
  "CHECK " ++ msgid

/-- Go `nntpConnection` (the feed policy and the mutex carry no data here). -/
structure nntpConnection where
  name : String
  mode : String
  group : String
  article : List String
  stream : List nntpStreamEvent
  deriving DecidableEq, Repr

/-- Go `createNNTPConnection`. -/
def createNNTPConnection : nntpConnection :=
  { name := "", mode := "", group := "", article := [], stream := [] }

/-- Go `ArticleEntry{msgid, group}` sent on `ask_for_article`. -/
abbrev ArticleEntry := String × String

/-- The fields of `NNTPDaemon` that the connection code uses. -/
structure NNTPDaemon where
  store : ArticleStore
  database : Database
  allow_anon : Bool
  allow_anon_attachments : Bool
  instance_name : String
  infeed_load : List String
  ask_for_article : List ArticleEntry

/-- Tasks started with `go`. -/
inductive Goroutine where
  | startStreaming (reader : Bool)
  | articleDefer (msgid : String)
  deriving DecidableEq, Repr

/-- Go `writeMIMEHeader`: the lines `key: value` of the header, then the blank
line (the map is written in the order of the association list). -/
def writeMIMEHeader (hdr : MIMEHeader) : List String :=
  (hdr.map (fun e => e.2.map (fun val => e.1 ++ ": " ++ val))).flatten ++ [""]

/-- Go `nntpConnection.checkMIMEHeader`: the reason of the rejection, empty
when the article is wanted, and the error. -/
def checkMIMEHeader (u : Util) (daemon : NNTPDaemon) (hdr : MIMEHeader) :
    String × Option Error :=
  let newsgroup := hdr.Get "Newsgroups"
  let reference := hdr.Get "References"
  let msgid := hdr.Get "Message-Id"
  let encaddr := hdr.Get "X-Encrypted-Ip"
  let torposter := hdr.Get "X-Tor-Poster"
  let i2paddr := hdr.Get "X-I2p-Desthash"
  let content_type := hdr.Get "Content-Type"
  let has_attachment := HasPrefix content_type "multipart/mixed"
  let pubkey := hdr.Get "X-Pubkey-Ed25519"
  let is_signed := pubkey != ""
  let is_ctl := newsgroup == "ctl" && is_signed
  let anon_poster := torposter != "" || i2paddr != "" || encaddr == ""
  if !u.newsgroupValidFormat newsgroup then
    ("invalid newsgroup", none)
  else if (daemon.database.NewsgroupBanned newsgroup).1 then
    ("newsgroup banned", none)
  else if !(u.ValidMessageID msgid || (reference != "" && !u.ValidMessageID reference)) then
    ("invalid reference or message id is '" ++ msgid ++ "' reference is '" ++ reference ++ "'",
      none)
  else if daemon.database.ArticleBanned msgid then
    ("article banned", none)
  else if reference != "" && daemon.database.ArticleBanned reference then
    ("thread banned", none)
  else if daemon.database.HasArticleLocal msgid then
    ("have this article locally", none)
  else if daemon.database.HasArticle msgid then
    ("already seen", none)
  else if is_ctl then
    ("", none)
  else if anon_poster then
    if daemon.allow_anon then
      if has_attachment || is_signed then
        if daemon.allow_anon_attachments then ("", none)
        else ("no anon signed posts or attachments", none)
      else ("", none)
    else ("no anon posts allowed", none)
  else
    if encaddr != "" then
      match daemon.database.CheckEncIPBanned encaddr with
      | (banned, none) => if banned then ("address banned", none) else ("", none)
      | (_, some e) => ("", some e)
    else ("", none)

/-- Everything a method of `nntpConnection` can read or change: the
connection, the daemon, the socket, and the tasks started so far. -/
structure World where
  self : nntpConnection
  daemon : NNTPDaemon
  conn : Conn
  started : List Goroutine

/-- A `conn.PrintfLine` whose error is dropped. -/
def World.print (w : World) (s : String) : World :=
  { w with conn := (w.conn.PrintfLine s).1 }

/-- The block "check if we don't have the rootpost" of the TAKETHIS, POST and
IHAVE handlers: a valid reference that is neither stored nor expired is sent
on `ask_for_article`. -/
def askRootPost (u : Util) (daemon : NNTPDaemon) (hdr : MIMEHeader) : NNTPDaemon :=
  let reference := hdr.Get "References"
  let newsgroup := hdr.Get "Newsgroups"
  if reference != "" && u.ValidMessageID reference && !daemon.store.HasArticle reference
      && !daemon.database.IsExpired reference then
    { daemon with ask_for_article := daemon.ask_for_article ++ [(reference, newsgroup)] }
  else daemon

/-- The block from `f := daemon.store.CreateTempFile(msgid)` on, shared by the
TAKETHIS, POST and IHAVE handlers; the socket has an open `DotReader`. The
error returned is the value of `err` after the block, `err` being its value
before. -/
def storeArticle (daemon : NNTPDaemon) (conn : Conn) (msgid : String) (hdr : MIMEHeader)
    (err : Option Error) : NNTPDaemon × Conn × Option Error :=
  match daemon.store.CreateTempFile msgid with
  | none =>
    -- discard
    (daemon, (conn.readDot).2.2, err)
  | some store =>
    let body := conn.readDot
    let store := store.writeTemp msgid (writeMIMEHeader hdr ++ body.1)
    if body.2.1 = none ∨ body.2.1 = some ioEOF then
      ({ daemon with store := store.closeTemp msgid,
                     infeed_load := daemon.infeed_load ++ [msgid] }, body.2.2, body.2.1)
    else ({ daemon with store := store }, body.2.2, body.2.1)

/-- The `TAKETHIS` branch of `handleLine`. -/
def handleTAKETHIS (u : Util) (w : World) (msgid : String) : World × Option Error :=
  match w.conn.ReadMIMEHeader with
  | (hdr, none, conn) =>
    let chk := checkMIMEHeader u w.daemon hdr
    let conn := conn.DotReader
    if chk.1.length > 0 then
      -- discard, we do not want
      let conn := (conn.readDot).2.2
      let ban := w.daemon.database.BanArticle msgid chk.1
      let w := { w with daemon := { w.daemon with database := ban.1 }, conn := conn }
      (w.print ("439 " ++ msgid ++ " " ++ chk.1), ban.2)
    else
      let daemon := askRootPost u w.daemon hdr
      let r := storeArticle daemon conn msgid hdr chk.2
      let w := { w with daemon := r.1, conn := r.2.1 }
      (w.print ("239 " ++ msgid ++ " gotten"), r.2.2)
  | (_, some e, conn) =>
    let w := { w with conn := conn }
    (w.print ("439 " ++ msgid ++ " error reading mime header"), some e)

/-- The `ARTICLE` branch of `handleLine`. -/
def handleARTICLE (u : Util) (w : World) (msgid : String) : World :=
  if u.ValidMessageID msgid then
    if w.daemon.store.HasArticle msgid then
      match w.daemon.store.Open (w.daemon.store.GetFilename msgid) with
      | .ok f =>
        let w := w.print ("220 " ++ msgid)
        { w with conn := (w.conn.writeDot f).1 }
      | .error err => w.print ("503 idkwtf happened: " ++ err.msg)
    else w.print ("430 " ++ msgid)
  else w.print "500 Syntax error"

/-- The `POST` branch of `handleLine`; `msgid` is the variable of that name
set at the top of `handleLine`. The wording of the 340 prompt is abridged. -/
def handlePOST (u : Util) (w : World) (msgid : String) : World :=
  let w := w.print "340 Post it; end with <CR-LF>.<CR-LF>"
  match w.conn.ReadMIMEHeader with
  | (hdr, none, conn) =>
    let w := { w with conn := conn }
    let hdr := hdr.set "Message-ID" [u.genMessageID w.daemon.instance_name]
    let chk := checkMIMEHeader u w.daemon hdr
    let success := chk.1 == "" && chk.2 == none
    if success then
      let conn := w.conn.DotReader
      let daemon := askRootPost u w.daemon hdr
      let r := storeArticle daemon conn msgid hdr chk.2
      let w := { w with daemon := r.1, conn := r.2.1 }
      w.print "240 We got it, thnkxbai"
    else w.print "441 Posting Failed"
  | (_, some _, conn) =>
    let w := { w with conn := conn }
    w.print "441 Posting Failed"

/-- The `IHAVE` branch of `handleLine`. -/
def handleIHAVE (u : Util) (w : World) (msgid : String) : World :=
  if w.daemon.database.HasArticleLocal msgid || w.daemon.database.HasArticle msgid
      || w.daemon.database.ArticleBanned msgid then
    w.print "435 Article Not Wanted"
  else
    let w := w.print "335 Send it plz"
    match w.conn.ReadMIMEHeader with
    | (hdr, none, conn) =>
      let chk := checkMIMEHeader u w.daemon hdr
      let conn := conn.DotReader
      if chk.1.length > 0 then
        let conn := (conn.readDot).2.2
        let ban := w.daemon.database.BanArticle msgid chk.1
        let w := { w with daemon := { w.daemon with database := ban.1 }, conn := conn }
        w.print "437 Rejected do not send again bro"
      else
        let daemon := askRootPost u w.daemon hdr
        let r := storeArticle daemon conn msgid hdr chk.2
        let w := { w with daemon := r.1, conn := r.2.1 }
        w.print "235 We got it"
    | (_, some e, conn) =>
      let w := { w with conn := conn }
      w.print ("436 Transfer failed: " ++ e.msg)

/-- The `NEWSGROUPS` branch of `handleLine`. -/
def handleNEWSGROUPS (w : World) : World :=
  let w := w.print "231 List of newsgroups follow"
  let rows := w.daemon.database.GetAllNewsgroups.filterMap (fun group =>
    match w.daemon.database.GetLastAndFirstForGroup group with
    | (lo, hi, none) => some (group ++ " " ++ toString lo ++ " " ++ toString hi ++ " y")
    | (_, _, some _) => none)
  { w with conn := (w.conn.writeDot rows).1 }

/-- Go `fmt.Sprintf("%.6d", n)` for `n ≥ 0`: at least six digits, zero padded. -/
def pad6 (n : Nat) : String :=
  String.mk (List.replicate (6 - (toString n).length) '0') ++ toString n

/-- The overview row the XOVER handler writes for the post at index `idx`. -/
def xoverRow (idx : Nat) (model : PostModel) : String :=
  pad6 (idx + 1) ++ "\t" ++ model.Subject ++ "\t\"" ++ model.Name ++ "\" <" ++ model.Name
    ++ "@" ++ model.Frontend ++ ">\t" ++ model.Date ++ "\t" ++ model.MessageID ++ "\t"
    ++ model.Reference

/-- The `XOVER` branch of `handleLine`. -/
def handleXOVER (w : World) : World :=
  if w.self.group = "" then w.print "412 No newsgroup selected"
  else
    match w.daemon.database.GetPostsInGroup w.self.group with
    | (models, none) =>
      let w := w.print "224 Overview information follows"
      { w with conn := (w.conn.writeDot (models.enum.map (fun im => xoverRow im.1 im.2))).1 }
    | (_, some err) => w.print ("500 error, " ++ err.msg)

/-- The `GROUP` branch of `handleLine`. -/
def handleGROUP (w : World) (group : String) : World :=
  if w.daemon.database.HasNewsgroup group then
    let w := { w with self := { w.self with group := group } }
    let number := w.daemon.database.CountPostsInGroup group 0
    match w.daemon.database.GetLastAndFirstForGroup group with
    | (low, hi, none) =>
      w.print ("211 " ++ toString number ++ " " ++ toString low ++ " " ++ toString hi ++ " "
        ++ group)
    | (_, _, some _) => w.print ("211 " ++ toString number ++ " 0 1 " ++ group)
  else w.print "411 No Such Newsgroup"

/-- The `MODE` branch of `handleLine`. -/
def handleMODE (w : World) (variant : String) : World :=
  if variant = "READER" then
    -- reader mode
    let w := { w with self := { w.self with mode := "READER" } }
    w.print "201 No posting Permitted"
  else if variant = "STREAM" then
    w.print "203 Streaming enabled brah"
  else
    w.print ("501 invalid mode variant:%!(EXTRA string=" ++ variant ++ ")")

/-- The `CHECK` branch of `handleLine`. -/
def handleCHECK (w : World) (msgid : String) : World :=
  if w.daemon.database.HasArticle msgid then w.print ("438 " ++ msgid)
  else if w.daemon.database.ArticleBanned msgid then w.print ("438 " ++ msgid)
  else w.print ("238 " ++ msgid)

/-- Go `nntpConnection.handleLine`. -/
def handleLine (u : Util) (w : World) (code : Int) (line : String) : World × Option Error :=
  let parts := Split line ' '
  let msgid := if code = 0 ∧ parts.length > 1 then nth parts 1 else nth parts 0
  if code = 238 then
    if u.ValidMessageID msgid then
      ({ w with self := { w.self with stream := w.self.stream ++ [nntpTAKETHIS msgid] } }, none)
    else (w, none)
  else if code = 239 then (w, none)
  else if code = 431 then
    ({ w with started := w.started ++ [Goroutine.articleDefer msgid] }, none)
  else if code = 439 then (w, none)
  else if code = 438 then (w, none)
  else
    -- handle command
    if parts.length > 1 then
      let cmd := nth parts 0
      if cmd = "MODE" then (handleMODE w (nth parts 1), none)
      else if cmd = "QUIT" then
        let w := w.print ""
        ({ w with conn := w.conn.Close }, none)
      else if cmd = "CHECK" then (handleCHECK w (nth parts 1), none)
      else if cmd = "TAKETHIS" then handleTAKETHIS u w msgid
      else if cmd = "ARTICLE" then (handleARTICLE u w msgid, none)
      else if cmd = "POST" then (handlePOST u w msgid, none)
      else if cmd = "IHAVE" then (handleIHAVE u w (nth parts 1), none)
      else if cmd = "NEWSGROUPS" then (handleNEWSGROUPS w, none)
      else if cmd = "XOVER" then (handleXOVER w, none)
      else if cmd = "GROUP" then (handleGROUP w (nth parts 1), none)
      else (w.print ("500 Invalid command: " ++ cmd), none)
    else (w, none)

/-- Go `nntpConnection.modeSwitch`: the world afterwards, `success`, `err`. -/
def modeSwitch (w : World) (mode : String) : World × Bool × Option Error :=
  let mode := ToUpper mode
  let w := w.print ("MODE " ++ mode)
  let r := w.conn.ReadCodeLine (-1)
  let w := { w with conn := r.2.2.2 }
  if r.1 > 200 ∧ r.1 < 300 then
    -- accepted mode change
    let w := { w with self := { w.self with mode := mode } }
    (w, decide (w.self.mode.length > 0), r.2.2.1)
  else (w, false, r.2.2.1)

/-- Go `nntpConnection.Quit`. -/
def Quit (w : World) : World × Option Error :=
  let w := w.print "QUIT"
  let r := w.conn.ReadCodeLine 0
  ({ w with conn := r.2.2.2 }, r.2.2.1)

/-- Go `nntpConnection.inboundHandshake`. -/
def inboundHandshake (w : World) : World × Option Error :=
  let r := w.conn.PrintfLine "200 Posting Allowed"
  ({ w with conn := r.1 }, r.2)

/-- The inner loop of `outboundHandshake` over the lines of the capability
list, in the order read: the flags `(stream, reader)` after them. -/
def capabilityFlags : List String → Bool × Bool → Bool × Bool
  | [], flags => flags
  | line :: rest, flags =>
    if line = "MODE-READER" ∨ line = "READER" then capabilityFlags rest (flags.1, true)
    else if line = "STREAMING" then capabilityFlags rest (true, flags.2)
    else if line = "POSTIHAVESTREAMING" then capabilityFlags rest (true, false)
    else capabilityFlags rest flags

/-- The loop `for err == nil` of `outboundHandshake`, with one unit of fuel for
every pass: the world afterwards, `stream`, `reader`, `err`; `none` when the
fuel runs out. -/
def outboundHandshakeLoop : Nat → World → Option (World × Bool × Bool × Option Error)
  | 0, _ => none
  | fuel + 1, w =>
    match w.conn.ReadCodeLine (-1) with
    | (_, _, some e, conn) => some ({ w with conn := conn }, false, false, some e)
    | (code, _, none, conn) =>
      let w := { w with conn := conn }
      if code = 200 then
        -- send capabilities
        match w.conn.PrintfLine "CAPABILITIES" with
        | (conn, none) =>
          -- read response
          let r := conn.DotReader.readDot
          let flags := capabilityFlags r.1 (false, false)
          some ({ w with conn := r.2.2 }, flags.1, flags.2, r.2.1)
        | (conn, some e) => some ({ w with conn := conn }, false, false, some e)
      else if code = 201 then some (w, false, false, none)
      else outboundHandshakeLoop fuel w

/-- Go `nntpConnection.outboundHandshake`; every pass of its loop reads a
line, so one unit of fuel per unread line and one more are enough. -/
def outboundHandshake (w : World) : Option (World × Bool × Bool × Option Error) :=
  outboundHandshakeLoop (w.conn.input.length + 1) w

/-- Go `nntpConnection.requestArticle`. -/
def requestArticle (u : Util) (w : World) (msgid : String) : World × Option Error :=
  let w := w.print ("ARTICLE " ++ msgid)
  let r := w.conn.ReadCodeLine (-1)
  let w := { w with conn := r.2.2.2 }
  if r.1 = 220 then
    match w.conn.ReadMIMEHeader with
    | (hdr, none, conn) =>
      let conn := conn.DotReader
      match checkMIMEHeader u w.daemon hdr with
      | (reason, none) =>
        if reason.length > 0 then
          let conn := (conn.readDot).2.2
          let ban := w.daemon.database.BanArticle msgid reason
          ({ w with daemon := { w.daemon with database := ban.1 }, conn := conn }, none)
        else
          match w.daemon.store.CreateTempFile msgid with
          | none => ({ w with conn := conn }, none)
          | some store =>
            let body := conn.readDot
            let store := (store.writeTemp msgid (writeMIMEHeader hdr ++ body.1)).closeTemp msgid
            let daemon := { w.daemon with store := store }
            let daemon := { daemon with infeed_load := daemon.infeed_load ++ [msgid] }
            ({ w with daemon := daemon, conn := body.2.2 }, none)
      | (_, some _) => ({ w with conn := conn }, none)
    | (_, some e, conn) => ({ w with conn := conn }, some e)
  else (w, r.2.2.1)

/-- The loop of `startReader` over the ids waiting on the `article` channel:
the world afterwards, and whether the loop has ended (`true`) or the channel
is drained and the task waits on it (`false`). -/
def startReaderLoop (u : Util) : List String → World → World × Bool
  | [], w => (w, false)
  | msgid :: queue, w =>
    match requestArticle u { w with self := { w.self with article := queue } } msgid with
    | (w, none) => startReaderLoop u queue w
    | (w, some _) => ({ w with conn := w.conn.Close }, true)

/-- Go `nntpConnection.startReader`. -/
def startReader (u : Util) (w : World) : World × Bool :=
  startReaderLoop u w.self.article w

/-- How one pass of the loop of `runConnection` ends. -/
inductive Flow where
  /-- Back to the loop test with this `err`. -/
  | loop (err : Option Error)
  /-- A `return` inside the loop. -/
  | returned
  /-- Slice bounds out of range. -/
  | panicked
  /-- The task waits on a channel. -/
  | blocked
  deriving DecidableEq, Repr

/-- The dispatch shared by both branches of `runConnection`: a line whose
first token is a 32-bit integer is handled as a response under that code with
`line[4:]`, any other line as a command under code 0. -/
def dispatchLine (u : Util) (w : World) (line : String) : World × Flow :=
  let parts := Split line ' '
  match ParseInt32 (nth parts 0) with
  | some code64 =>
    match sliceFrom line 4 with
    | some rest =>
      let r := handleLine u w code64 rest
      (r.1, Flow.loop r.2)
    | none => (w, Flow.panicked)
  | none =>
    let r := handleLine u w 0 line
    (r.1, Flow.loop r.2)

/-- One pass of the loop of `runConnection`; `success` is the variable of that
name, which lives across passes. -/
def runConnectionStep (u : Util) (inbound stream reader : Bool) (preferMode : String)
    (w : World) (success : Bool) : World × Bool × Flow :=
  if w.self.mode = "" then
    if inbound then
      -- no mode and inbound
      match w.conn.ReadLine with
      | (line, err, conn) =>
        let w := { w with conn := conn }
        if line.length = 0 then ({ w with conn := w.conn.Close }, success, Flow.returned)
        else if line = "QUIT" then
          let w := w.print "205 bai"
          ({ w with conn := w.conn.Close }, success, Flow.returned)
        else
          let parts := Split line ' '
          let cmd := nth parts 0
          if cmd = "CAPABILITIES" then
            let w := w.print "101 i support to the following:"
            let caps := ["VERSION 2", "READER", "STREAMING", "IMPLEMENTATION srndv2"]
            ({ w with conn := (w.conn.writeDot caps).1 }, success, Flow.loop err)
          else if cmd = "MODE" then
            if parts.length = 2 then
              if nth parts 1 = "READER" then
                let w := { w with self := { w.self with mode := "READER" } }
                (w.print "201 Not Posting Permitted Yo", success, Flow.loop err)
              else if nth parts 1 = "STREAM" then
                let w := w.print "203 Stream it brah"
                let w := { w with self := { w.self with mode := "STREAM" } }
                ({ w with started := w.started ++ [Goroutine.startStreaming reader] }, success,
                  Flow.loop err)
              else (w, success, Flow.loop err)
            else (w, success, Flow.loop err)
          else
            let r := dispatchLine u w line
            (r.1, success, r.2)
    else
      -- no mode and outbound
      let r : World × Bool × Option Error × Bool :=
        if preferMode = "stream" then
          if stream then
            let m := modeSwitch w "STREAM"
            let w := { m.1 with self := { m.1.self with mode := "STREAM" } }
            if m.2.1 then
              ({ w with started := w.started ++ [Goroutine.startStreaming reader] }, m.2.1,
                m.2.2, false)
            else (w, m.2.1, m.2.2, false)
          else (w, success, none, false)
        else if reader then
          let m := modeSwitch w "READER"
          if m.2.1 then
            let w := { m.1 with self := { m.1.self with mode := "READER" } }
            let rd := startReader u w
            (rd.1, m.2.1, m.2.2, !rd.2)
          else (m.1, m.2.1, m.2.2, false)
        else (w, success, none, false)
      if r.2.2.2 then (r.1, r.2.1, Flow.blocked)
      else if r.2.1 then (r.1, r.2.1, Flow.loop r.2.2.1)
      else
        let w := r.1.print "QUIT"
        ({ w with conn := w.conn.Close }, r.2.1, Flow.returned)
  else
    -- we have our mode set
    match w.conn.ReadLine with
    | (line, none, conn) =>
      let r := dispatchLine u { w with conn := conn } line
      (r.1, success, r.2)
    | (_, some e, conn) => ({ w with conn := conn }, success, Flow.loop (some e))

/-- How `runConnection` ends. -/
inductive Exit where
  /-- The function returned. -/
  | returned
  /-- A run-time panic. -/
  | panicked
  /-- The task waits on a channel. -/
  | blocked
  deriving DecidableEq, Repr

/-- Go `nntpConnection.runConnection`, with one unit of fuel for every pass of
its loop; `none` when the fuel runs out. -/
def runConnectionLoop (u : Util) (inbound stream reader : Bool) (preferMode : String) :
    Nat → World → Bool → Option (World × Exit)
  | 0, _, _ => none
  | fuel + 1, w, success =>
    match runConnectionStep u inbound stream reader preferMode w success with
    | (w, success, Flow.loop none) =>
      runConnectionLoop u inbound stream reader preferMode fuel w success
    | (w, _, Flow.loop (some _)) =>
      let w := if !inbound then w.print "QUIT" else w
      some ({ w with conn := w.conn.Close }, Exit.returned)
    | (w, _, Flow.returned) => some (w, Exit.returned)
    | (w, _, Flow.panicked) => some (w, Exit.panicked)
    | (w, _, Flow.blocked) => some (w, Exit.blocked)

/-- Go `nntpConnection.runConnection`. -/
def runConnection (u : Util) (inbound stream reader : Bool) (preferMode : String)
    (fuel : Nat) (w : World) : Option (World × Exit) :=
  runConnectionLoop u inbound stream reader preferMode fuel w false

/-! ## Reference definitions and sample states -/

/-- The seven rejection conditions of the header filter in the order in which
the specification lists them, each with its reason (for the third, the words
every such reason starts with). -/
def specRejectionTable (u : Util) (db : Database) (hdr : MIMEHeader) : List (Bool × String) :=
  let newsgroup := hdr.Get "Newsgroups"
  let reference := hdr.Get "References"
  let msgid := hdr.Get "Message-Id"
  [ (!u.newsgroupValidFormat newsgroup, "invalid newsgroup"),
    ((db.NewsgroupBanned newsgroup).1, "newsgroup banned"),
    (!(u.ValidMessageID msgid || (reference != "" && !u.ValidMessageID reference)),
      "invalid reference or message id"),
    (db.ArticleBanned msgid, "article banned"),
    (reference != "" && db.ArticleBanned reference, "thread banned"),
    (db.HasArticleLocal msgid, "have this article locally"),
    (db.HasArticle msgid, "already seen") ]

/-- The reason of the first condition of a table that holds. -/
def firstMatch (table : List (Bool × String)) : Option String :=
  (table.find? (fun row => row.1)).map (fun row => row.2)

/-- Bytes of a message-id token: printable ASCII other than `<`, `>`, `@`. -/
def tokenByte (c : Char) : Bool :=
  decide (33 ≤ c.toNat) && decide (c.toNat ≤ 126) && c != '<' && c != '>' && c != '@'

/-- Modelled from the spec: `ValidMessageID` of the absent util.go, true for
`<token@token>` with non-empty tokens and at most 250 bytes. -/
def specValidMessageID (s : String) : Bool :=
  decide (s.length ≤ 250) &&
    match s.data with
    | '<' :: rest =>
      match splitChars '@' rest with
      | [a, b] =>
        !a.isEmpty && a.all tokenByte && b.getLast? == some '>' && !b.dropLast.isEmpty
          && b.dropLast.all tokenByte
      | _ => false
    | _ => false

/-- Bytes of a newsgroup segment: `[a-z0-9+_-]`. -/
def groupByte (c : Char) : Bool :=
  c.isLower || c.isDigit || c == '+' || c == '_' || c == '-'

/-- Modelled from the spec: `newsgroupValidFormat` of the absent util.go, true
for non-empty dot-separated segments of `[a-z0-9+_-]` and at most 128 bytes. -/
def specNewsgroupValidFormat (s : String) : Bool :=
  decide (s.length ≤ 128) &&
    (splitChars '.' s.data).all (fun seg => !seg.isEmpty && seg.all groupByte)

/-- The package functions as the specification describes them, with a fixed
fresh id. -/
def specUtil : Util :=
  { ValidMessageID := specValidMessageID
    newsgroupValidFormat := specNewsgroupValidFormat
    genMessageID := fun instance_name => "<fresh1@" ++ instance_name ++ ">"
    timeNow := 0 }

/-- A database with no article, no group and no ban, whose queries succeed. -/
def emptyDatabase : Database :=
  { NewsgroupBanned := fun _ => (false, none)
    bans := []
    HasArticleLocal := fun _ => false
    HasArticle := fun _ => false
    CheckEncIPBanned := fun _ => (false, none)
    IsExpired := fun _ => false
    HasNewsgroup := fun _ => false
    CountPostsInGroup := fun _ _ => 0
    GetLastAndFirstForGroup := fun _ => (0, 0, none)
    GetAllNewsgroups := []
    GetPostsInGroup := fun _ => ([], none) }

/-- A daemon over `db` with an empty store that takes anonymous posts. -/
def sampleDaemon (db : Database) : NNTPDaemon :=
  { store := { directory := "store", files := [], temp := [] }
    database := db
    allow_anon := true
    allow_anon_attachments := false
    instance_name := "node"
    infeed_load := []
    ask_for_article := [] }

/-- A connection in `mode` on an open socket whose peer has sent `input`. -/
def sampleWorld (db : Database) (mode : String) (input : List String) : World :=
  { self := { createNNTPConnection with name := "peer", mode := mode }
    daemon := sampleDaemon db
    conn := { input := input, output := [], closed := false, dot := false }
    started := [] }

/-- The world after one more line `s` has gone out on the socket and nothing
else has changed. -/
def World.wrote (w : World) (s : String) : World :=
  { w with conn := { w.conn with output := w.conn.output ++ [s] } }

/-- A database in which `<a@b>` is banned, seen and stored locally. -/
def bannedLocalDatabase : Database :=
  { emptyDatabase with
    bans := [("<a@b>", "spam")]
    HasArticleLocal := fun m => m == "<a@b>"
    HasArticle := fun m => m == "<a@b>" }

/-- The header of a plain anonymous article `<a@b>`. -/
def plainHeader : MIMEHeader :=
  [("Newsgroups", ["overchan.test"]), ("Message-Id", ["<a@b>"])]

/-- A database in which the thread `<root@x>` is banned. -/
def threadBannedDatabase : Database :=
  { emptyDatabase with bans := [("<root@x>", "spam")] }

/-- The header of a reply `<a@b>` to `<root@x>`. -/
def replyHeader : MIMEHeader :=
  [("Newsgroups", ["overchan.test"]), ("Message-Id", ["<a@b>"]), ("References", ["<root@x>"])]

/-- The lines of a reply `<a@b>` to `<root@x>` on the wire, followed by one more command. -/
def replyArticle : List String :=
  ["Newsgroups: overchan.test", "Message-Id: <a@b>", "References: <root@x>", "", "body", ".",
    "CHECK <c@d>"]

/-- A database in which the group `spam` is banned. -/
def spamDatabase : Database :=
  { emptyDatabase with NewsgroupBanned := fun g => (g == "spam", none) }

/-- The header of an article `<a@b>` in the group `spam`. -/
def spamHeader : MIMEHeader :=
  [("Newsgroups", ["spam"]), ("Message-Id", ["<a@b>"])]

/-- The lines of an article `<a@b>` in the group `spam`, followed by one more command. -/
def spamArticle : List String :=
  ["Newsgroups: spam", "Message-Id: <a@b>", "", "body", ".", "CHECK <c@d>"]

/-- A database whose `NewsgroupBanned` and `CheckEncIPBanned` queries fail. -/
def failingDatabase : Database :=
  { emptyDatabase with
    NewsgroupBanned := fun _ => (false, some ⟨"database is down"⟩)
    CheckEncIPBanned := fun _ => (false, some ⟨"database is down"⟩) }

/-- The header of an article `<a@b>` whose poster has an encrypted address. -/
def addressedHeader : MIMEHeader :=
  [("Newsgroups", ["overchan.test"]), ("Message-Id", ["<a@b>"]), ("X-Encrypted-Ip", ["abcdef"])]

/-- The lines of an article of a poster with an encrypted address, followed by
one more command. -/
def addressedArticle : List String :=
  ["Newsgroups: overchan.test", "Message-Id: <a@b>", "X-Encrypted-Ip: abcdef", "", "body", ".",
    "CHECK <c@d>"]

/-- The lines of an anonymous article `<a@b>`, followed by one more command. -/
def anonArticle : List String :=
  ["Newsgroups: overchan.test", "Message-Id: <a@b>", "", "body", ".", "CHECK <c@d>"]

/-- The socket after the header of one of the sample articles has been read. -/
def bodyConn : Conn :=
  { input := ["body", ".", "CHECK <c@d>"], output := [], closed := false, dot := false }

/-- A world in which another task is loading `<a@b>`: its sink is live. -/
def busyWorld : World :=
  { sampleWorld emptyDatabase "STREAM" anonArticle with
    daemon := { sampleDaemon emptyDatabase with
      store := { directory := "store", files := [], temp := [⟨"<a@b>", ["half"], false⟩] } } }

/-! ## Iterating the store (`store.go`) -/

/-- What the filesystem answers when a directory is opened and listed: the
error of `os.Open`, and the names and the error of `f.Readdirnames(-1)`. -/
structure DirRead where
  openErr : Option Error
  names : List String
  readErr : Option Error
  deriving DecidableEq, Repr

/-- The `for idx := range names` loops of the two iterators: names for which
`skip` holds are passed over, `hook` is called on the others in order until it
returns true. The result lists the names `hook` was called on. -/
def iterateNames (skip hook : String → Bool) : List String → List String
  | [] => []
  | fname :: rest =>
    if skip fname then iterateNames skip hook rest
    else if hook fname then [fname]
    else fname :: iterateNames skip hook rest

/-- Go `ArticleStore.IterateAllForNewsgroup`: the names the hook was called
on and the error returned. `fs` is the filesystem, by directory path (for
group names that `filepath.Clean` leaves as they are). -/
def ArticleStore.IterateAllForNewsgroup (self : ArticleStore) (fs : String → DirRead)
    (newsgroup : String) (hook : String → Bool) : List String × Option Error :=
  let dir := fs (self.directory ++ "/" ++ newsgroup)
  match dir.openErr with
  | some err => ([], some err)
  | none => (iterateNames (fun _ => false) hook dir.names, dir.readErr)

/-- Go `ArticleStore.IterateAllArticles`: the names the hook was called on and
the error returned. `fs` is the filesystem, by directory path, and `IsDir` the
function of that name of the absent util.go. -/
def ArticleStore.IterateAllArticles (self : ArticleStore) (fs : String → DirRead)
    (IsDir : String → Bool) (hook : String → Bool) : List String × Option Error :=
  let dir := fs self.directory
  match dir.openErr with
  | some err => ([], some err)
  | none => (iterateNames (fun fname => IsDir (self.GetFilename fname)) hook dir.names, none)

/-! ## The scraper (`nntp.go`) -/

/-- Go `articles[k] = v` on a `map[string]string` kept as an association list. -/
def mapSet (m : List (String × String)) (k v : String) : List (String × String) :=
  if m.any (fun e => e.1 = k) then m.map (fun e => if e.1 = k then (k, v) else e)
  else m ++ [(k, v)]

/-- The loop of `scrapeGroup` over the lines of the overview: a line with more
than five tab-separated fields records field 4 (the message-id) with field 5
(the reference); other lines are ignored. -/
def overviewArticles : List String → List (String × String) → List (String × String)
  | [], articles => articles
  | line :: rest, articles =>
    let parts := Split line '\t'
    if parts.length > 5 then overviewArticles rest (mapSet articles (nth parts 4) (nth parts 5))
    else overviewArticles rest articles

/-- The block of `scrapeGroup` for one id of the overview: a non-empty valid id
that is neither seen nor banned is requested from the peer. -/
def scrapeOne (u : Util) (w : World) (id : String) : World × Option Error :=
  if id.length > 0 && u.ValidMessageID id then
    if w.daemon.database.HasArticle id then (w, none)
    else if w.daemon.database.ArticleBanned id then (w, none)
    else requestArticle u w id
  else (w, none)

/-- The loop `for msgid, refid := range articles` of `scrapeGroup`, in the
order of the association list: first the reference, then the message-id; the
first error ends the function. -/
def scrapeArticles (u : Util) : List (String × String) → World → World × Option Error
  | [], w => (w, none)
  | (msgid, refid) :: rest, w =>
    match scrapeOne u w refid with
    | (w, some err) => (w, some err)
    | (w, none) =>
      match scrapeOne u w msgid with
      | (w, some err) => (w, some err)
      | (w, none) => scrapeArticles u rest w

/-- Go `nntpConnection.scrapeGroup`. -/
def scrapeGroup (u : Util) (w : World) (group : String) : World × Option Error :=
  match w.conn.PrintfLine ("GROUP " ++ group) with
  | (conn, some err) => ({ w with conn := conn }, some err)
  | (conn, none) =>
    let w := { w with conn := conn }
    let r := w.conn.ReadCodeLine 211
    let w := { w with conn := r.2.2.2 }
    if r.1 = (211 : Int) then
      match w.conn.PrintfLine "XOVER 0" with
      | (conn, some err) => ({ w with conn := conn }, some err)
      | (conn, none) =>
        let w := { w with conn := conn }
        let r := w.conn.ReadCodeLine 224
        let w := { w with conn := r.2.2.2 }
        if r.1 = (224 : Int) then
          let body := w.conn.DotReader.readDot
          let articles := overviewArticles body.1 []
          let w := { w with conn := body.2.2 }
          match body.2.1 with
          | none => scrapeArticles u articles w
          | some err => (w, some err)
        else (w, r.2.2.1)
    else (w, r.2.2.1)

/-! ## More reference definitions and sample states -/

/-- The decision of the header filter on the poster, as the specification
words it, for an article that none of the seven rejection conditions rejects:
a signed control message is admitted; an anonymous poster (`X-Tor-Poster` set,
`X-I2p-Desthash` set or `X-Encrypted-Ip` absent) is refused when anonymous
posts are not allowed, refused with an attachment or a signature when
anonymous attachments are not allowed, and admitted otherwise; any other
poster is refused exactly when the encrypted address is banned. The empty
reason is an admission. -/
def specPosterRule (daemon : NNTPDaemon) (hdr : MIMEHeader) : String :=
  if hdr.Get "Newsgroups" = "ctl" ∧ hdr.Get "X-Pubkey-Ed25519" ≠ "" then ""
  else if hdr.Get "X-Tor-Poster" ≠ "" ∨ hdr.Get "X-I2p-Desthash" ≠ "" ∨
      hdr.Get "X-Encrypted-Ip" = "" then
    if ¬ daemon.allow_anon = true then "no anon posts allowed"
    else if (HasPrefix (hdr.Get "Content-Type") "multipart/mixed" = true ∨
        hdr.Get "X-Pubkey-Ed25519" ≠ "") ∧ ¬ daemon.allow_anon_attachments = true then
      "no anon signed posts or attachments"
    else ""
  else if (daemon.database.CheckEncIPBanned (hdr.Get "X-Encrypted-Ip")).1 = true then
    "address banned"
  else ""

/-- A database in which the address `abcdef` is banned. -/
def addressBannedDatabase : Database :=
  { emptyDatabase with CheckEncIPBanned := fun a => (a == "abcdef", none) }

/-- The header of a reply whose Message-Id `<b@b>` is not the id it is offered under. -/
def otherIdHeader : MIMEHeader :=
  [("Newsgroups", ["overchan.test"]), ("Message-Id", ["<b@b>"]), ("References", ["<root@x>"])]

/-- The lines of a reply with Message-Id `<b@b>`, followed by one more command. -/
def otherIdArticle : List String :=
  ["Newsgroups: overchan.test", "Message-Id: <b@b>", "References: <root@x>", "", "body", ".",
    "CHECK <c@d>"]

/-- The header a poster submits with a Message-Id of its own. -/
def postedHeader : MIMEHeader :=
  [("Newsgroups", ["overchan.test"]), ("Message-Id", ["<mine@poster>"])]

/-- The lines of a submission with a Message-Id of its own, followed by one more command. -/
def postedArticle : List String :=
  ["Newsgroups: overchan.test", "Message-Id: <mine@poster>", "", "hello", ".", "CHECK <c@d>"]

/-- The header a poster submits without a Message-Id. -/
def bareHeader : MIMEHeader :=
  [("Newsgroups", ["overchan.test"]), ("Subject", ["hello"])]

/-- The lines of a submission without a Message-Id, followed by one more command. -/
def bareArticle : List String :=
  ["Newsgroups: overchan.test", "Subject: hello", "", "hello", ".", "CHECK <c@d>"]

/-- A store directory that opens but whose listing fails after two names. -/
def brokenListing : String → DirRead :=
  fun _ => { openErr := none, names := ["<a@b>", "<c@d>"], readErr := some ⟨"input/output error"⟩ }

/-- A store directory that cannot be opened. -/
def missingDirectory : String → DirRead :=
  fun _ => { openErr := some ⟨"no such file or directory"⟩, names := [], readErr := none }

theorem HasPrefix_append (p t : String) : HasPrefix (p ++ t) p = true := by
  unfold HasPrefix
  rw [String.data_append]
  exact List.isPrefixOf_iff_prefix.mpr ( List.prefix_append _ _)

theorem HasPrefix_self (p : String) : HasPrefix p p = true := by
  unfold HasPrefix
  exact List.isPrefixOf_iff_prefix.mpr ( List.prefix_refl _)

theorem length_pos_iff (s : String) : s.length > 0 ↔ s ≠ "" := by
  cases s with
  | mk d =>
    cases d with
    | nil => exact ⟨fun h => absurd h (Nat.lt_irrefl 0), fun h => absurd rfl h⟩
    | cons c cs =>
      refine ⟨fun _ h => ?_, fun _ => Nat.succ_pos _⟩
      have h2 : c :: cs = [] := congrArg String.data h
      exact List.noConfusion h2

theorem invalid_reason_stem (a b : String) : HasPrefix
    ("invalid reference or message id is '" ++ a ++ "' reference is '" ++ b ++ "'")
    "invalid reference or message id" = true := by
  have h : "invalid reference or message id is '"
      = "invalid reference or message id" ++ " is '" := by decide
  rw [h, String.append_assoc, String.append_assoc, String.append_assoc, String.append_assoc]
  exact HasPrefix_append _ _

theorem invalid_reason_ne_local (a b : String) :
    "invalid reference or message id is '" ++ a ++ "' reference is '" ++ b ++ "'"
      ≠ "have this article locally" := by
  intro heq
  have h := invalid_reason_stem a b
  rw [heq] at h
  revert h
  decide

theorem invalid_reason_ne_database_error (a b : String) :
    "invalid reference or message id is '" ++ a ++ "' reference is '" ++ b ++ "'"
      ≠ "database error" := by
  intro heq
  have h := invalid_reason_stem a b
  rw [heq] at h
  revert h
  decide

theorem reply_438_ne_238 (id : String) : "438 " ++ id ≠ "238 " ++ id := by
  intro h
  have h1 : ("438 " ++ id).data.head? = some '4' := by rw [String.data_append]; rfl
  have h2 : ("238 " ++ id).data.head? = some '2' := by rw [String.data_append]; rfl
  rw [h, h2] at h1
  revert h1
  decide

theorem wrote_inj (w : World) (a b : String) (h : (w.wrote a, (none : Option Error)) = (w.wrote b, none)) :
    a = b := by
  have h1 : (w.wrote a).conn.output = (w.wrote b).conn.output := by
    rw [(Prod.mk.inj h).1]
  simpa [World.wrote] using h1

theorem closeDot_closed (c : Conn) : c.closeDot.closed = c.closed := by
  unfold Conn.closeDot Conn.readDot
  split
  · split
    · rfl
    · split <;> rfl
  · rfl

theorem closeDot_dot (c : Conn) : c.closeDot.dot = false := by
  unfold Conn.closeDot Conn.readDot
  split
  · split
    · rfl
    · split <;> rfl
  · simp_all

theorem closeDot_output (c : Conn) : c.closeDot.output = c.output := by
  unfold Conn.closeDot Conn.readDot
  split
  · split
    · rfl
    · split <;> rfl
  · rfl

theorem closeDot_of_dot_false (c : Conn) (h : c.dot = false) : c.closeDot = c := by
  simp [Conn.closeDot, h]

/-- What a successful `ReadMIMEHeader` leaves behind: an open socket with no
pending dot reader and the output untouched. -/
theorem ReadMIMEHeader_ok (c c1 : Conn) (hdr : MIMEHeader)
    (h : c.ReadMIMEHeader = (hdr, none, c1)) :
    c1.closed = false ∧ c1.dot = false ∧ c1.output = c.output := by
  unfold Conn.ReadMIMEHeader at h
  simp only at h
  split at h
  · simp [errClosed] at h
  · rename_i hc
    simp only [Prod.mk.injEq] at h
    obtain ⟨-, -, h3⟩ := h
    subst h3
    simp [closeDot_dot, closeDot_output, closeDot_closed] at hc ⊢
    simpa [closeDot_closed] using hc

/-- Reading the body through a fresh dot reader on an open socket leaves the
input that follows the terminator of the block. -/
theorem readDot_DotReader (c1 : Conn) (hc : c1.closed = false) (hd : c1.dot = false) :
    c1.DotReader.readDot.2.2 =
      { c1 with input := ((dotBlock c1.input).2).getD [] } := by
  unfold Conn.DotReader
  rw [closeDot_of_dot_false c1 hd]
  unfold Conn.readDot
  simp only [hc]
  cases hb : dotBlock c1.input with
  | mk ls rest =>
    cases rest with
    | none => simp [hd]
    | some r => simp [hd]

/-! ## The dispatcher: auxiliary facts -/

/-- A command line of at least two tokens under code 0 goes to the branch of
its first token, with the second token as `msgid`. -/
theorem handleLine_command (u : Util) (w : World) (line cmd a : String) (rest : List String)
    (h : Split line ' ' = cmd :: a :: rest) :
    handleLine u w 0 line =
      if cmd = "MODE" then (handleMODE w a, none)
      else if cmd = "QUIT" then ({ w.print "" with conn := (w.print "").conn.Close }, none)
      else if cmd = "CHECK" then (handleCHECK w a, none)
      else if cmd = "TAKETHIS" then handleTAKETHIS u w a
      else if cmd = "ARTICLE" then (handleARTICLE u w a, none)
      else if cmd = "POST" then (handlePOST u w a, none)
      else if cmd = "IHAVE" then (handleIHAVE u w a, none)
      else if cmd = "NEWSGROUPS" then (handleNEWSGROUPS w, none)
      else if cmd = "XOVER" then (handleXOVER w, none)
      else if cmd = "GROUP" then (handleGROUP w a, none)
      else (w.print ("500 Invalid command: " ++ cmd), none) := by
  simp [handleLine, h, nth]

theorem handleLine_of_CHECK (u : Util) (w : World) (line id : String) (rest : List String)
    (h : Split line ' ' = "CHECK" :: id :: rest) :
    handleLine u w 0 line = (handleCHECK w id, none) := by
  rw [handleLine_command u w line _ _ _ h]
  simp

theorem handleLine_of_TAKETHIS (u : Util) (w : World) (line id : String) (rest : List String)
    (h : Split line ' ' = "TAKETHIS" :: id :: rest) :
    handleLine u w 0 line = handleTAKETHIS u w id := by
  rw [handleLine_command u w line _ _ _ h]
  simp

theorem askRootPost_store (u : Util) (daemon : NNTPDaemon) (hdr : MIMEHeader) :
    (askRootPost u daemon hdr).store = daemon.store := by
  unfold askRootPost
  simp only
  split <;> rfl

theorem askRootPost_infeed (u : Util) (daemon : NNTPDaemon) (hdr : MIMEHeader) :
    (askRootPost u daemon hdr).infeed_load = daemon.infeed_load := by
  unfold askRootPost
  simp only
  split <;> rfl

/-- The TAKETHIS handler on an article whose header is read and which the
filter rejects: the body is read off the socket, a ban record for the offered
id is added, and the 439 line goes out. -/
theorem handleTAKETHIS_reject (u : Util) (w : World) (id : String) (hdr : MIMEHeader)
    (c1 : Conn) (hread : w.conn.ReadMIMEHeader = (hdr, none, c1))
    (hreason : (checkMIMEHeader u w.daemon hdr).1 ≠ "") :
    handleTAKETHIS u w id =
      ({ w with
          daemon := { w.daemon with
            database := { w.daemon.database with
              bans := (id, (checkMIMEHeader u w.daemon hdr).1) :: w.daemon.database.bans } }
          conn := { c1 with
            input := ((dotBlock c1.input).2).getD []
            output := w.conn.output ++
              ["439 " ++ id ++ " " ++ (checkMIMEHeader u w.daemon hdr).1] } }, none) := by
  obtain ⟨hc, hd, ho⟩ := ReadMIMEHeader_ok _ _ _ hread
  have hlen : (checkMIMEHeader u w.daemon hdr).1.length > 0 := (length_pos_iff _).mpr hreason
  simp only [handleTAKETHIS, hread, hlen, readDot_DotReader c1 hc hd]
  simp [World.print, Conn.PrintfLine, hc, ho, Database.BanArticle]

/-- The TAKETHIS handler on an article whose header is read and admitted while
`CreateTempFile` answers with the Busy sentinel. -/
theorem handleTAKETHIS_busy (u : Util) (w : World) (id : String) (hdr : MIMEHeader)
    (c1 : Conn) (hread : w.conn.ReadMIMEHeader = (hdr, none, c1))
    (hreason : (checkMIMEHeader u w.daemon hdr).1 = "")
    (hbusy : w.daemon.store.CreateTempFile id = none) :
    handleTAKETHIS u w id =
      ({ w with
          daemon := askRootPost u w.daemon hdr
          conn := { c1 with
            input := ((dotBlock c1.input).2).getD []
            output := w.conn.output ++ ["239 " ++ id ++ " gotten"] } },
        (checkMIMEHeader u w.daemon hdr).2) := by
  obtain ⟨hc, hd, ho⟩ := ReadMIMEHeader_ok _ _ _ hread
  have hlen : ¬ (checkMIMEHeader u w.daemon hdr).1.length > 0 := by
    rw [hreason]; decide
  simp only [handleTAKETHIS, hread, hlen, storeArticle, askRootPost_store, hbusy,
    readDot_DotReader c1 hc hd]
  simp [World.print, Conn.PrintfLine, hc, ho]

/-- The filter on a reply to a banned thread whose own id and group pass. -/
theorem checkMIMEHeader_thread_banned (u : Util) (daemon : NNTPDaemon) (hdr : MIMEHeader)
    (h1 : u.newsgroupValidFormat (hdr.Get "Newsgroups") = true)
    (h2 : (daemon.database.NewsgroupBanned (hdr.Get "Newsgroups")).1 = false)
    (h3 : u.ValidMessageID (hdr.Get "Message-Id") = true)
    (h4 : daemon.database.ArticleBanned (hdr.Get "Message-Id") = false)
    (h5 : hdr.Get "References" ≠ "")
    (h6 : daemon.database.ArticleBanned (hdr.Get "References") = true) :
    checkMIMEHeader u daemon hdr = ("thread banned", none) := by
  simp [checkMIMEHeader, h1, h2, h3, h4, h5, h6]

/-- No outcome of the filter carries the reason `"database error"`. -/
theorem checkMIMEHeader_ne_database_error (u : Util) (daemon : NNTPDaemon) (hdr : MIMEHeader) :
    (checkMIMEHeader u daemon hdr).1 ≠ "database error" := by
  simp only [checkMIMEHeader]
  generalize hdr.Get "Newsgroups" = ng
  generalize hdr.Get "References" = ref
  generalize hdr.Get "Message-Id" = msgid
  generalize hdr.Get "X-Encrypted-Ip" = enc
  generalize hdr.Get "X-Pubkey-Ed25519" = key
  generalize hdr.Get "X-Tor-Poster" = tor
  generalize hdr.Get "X-I2p-Desthash" = i2p
  generalize hdr.Get "Content-Type" = ctype
  generalize u.newsgroupValidFormat ng = c1
  generalize (daemon.database.NewsgroupBanned ng).1 = c2
  generalize (u.ValidMessageID msgid || (ref != "" && !u.ValidMessageID ref)) = c3
  generalize daemon.database.ArticleBanned msgid = c4
  generalize (ref != "" && daemon.database.ArticleBanned ref) = c5
  generalize daemon.database.HasArticleLocal msgid = c6
  generalize daemon.database.HasArticle msgid = c7
  generalize (ng == "ctl" && key != "") = c8
  generalize (tor != "" || i2p != "" || enc == "") = c9
  generalize daemon.allow_anon = c10
  generalize (HasPrefix ctype "multipart/mixed" || key != "") = c11
  generalize daemon.allow_anon_attachments = c12
  generalize (enc != "") = c13
  generalize daemon.database.CheckEncIPBanned enc = q
  cases c1
  · simp
  cases c2
  swap
  · simp
  cases c3
  · simpa using invalid_reason_ne_database_error msgid ref
  cases c4
  swap
  · simp
  cases c5
  swap
  · simp
  cases c6
  swap
  · simp
  cases c7
  swap
  · simp
  rcases q with ⟨b, _ | e⟩ <;> cases b <;> cases c8 <;> cases c9 <;> cases c10 <;> cases c11 <;>
    cases c12 <;> cases c13 <;> simp

theorem print_self (w : World) (s : String) : (w.print s).self = w.self := rfl

theorem handleMODE_mode (w : World) (v : String) :
    (handleMODE w v).self.mode = if v = "READER" then "READER" else w.self.mode := by
  unfold handleMODE
  split
  · rfl
  · split <;> rfl

theorem handleCHECK_self (w : World) (id : String) : (handleCHECK w id).self = w.self := by
  unfold handleCHECK
  split
  · rfl
  · split <;> rfl

theorem handleTAKETHIS_self (u : Util) (w : World) (id : String) :
    (handleTAKETHIS u w id).1.self = w.self := by
  unfold handleTAKETHIS
  split
  · simp only
    split <;> rfl
  · rfl

theorem handleARTICLE_self (u : Util) (w : World) (id : String) :
    (handleARTICLE u w id).self = w.self := by
  unfold handleARTICLE
  split
  · split
    · split <;> rfl
    · rfl
  · rfl

theorem handlePOST_self (u : Util) (w : World) (id : String) :
    (handlePOST u w id).self = w.self := by
  unfold handlePOST
  simp only
  split
  · split <;> rfl
  · rfl

theorem handleIHAVE_self (u : Util) (w : World) (id : String) :
    (handleIHAVE u w id).self = w.self := by
  unfold handleIHAVE
  split
  · rfl
  · simp only
    split
    · split <;> rfl
    · rfl

theorem handleNEWSGROUPS_self (w : World) : (handleNEWSGROUPS w).self = w.self := rfl

theorem handleXOVER_self (w : World) : (handleXOVER w).self = w.self := by
  unfold handleXOVER
  split
  · rfl
  · split <;> rfl

theorem handleGROUP_mode (w : World) (g : String) :
    (handleGROUP w g).self.mode = w.self.mode := by
  unfold handleGROUP
  split
  · simp only
    split <;> rfl
  · rfl

/-- The mode after `handleLine`: only the command `MODE READER` writes it. -/
theorem mode_after_handleLine (u : Util) (w : World) (code : Int) (line : String) :
    (handleLine u w code line).1.self.mode =
      if (code ≠ 238 ∧ code ≠ 239 ∧ code ≠ 431 ∧ code ≠ 439 ∧ code ≠ 438) ∧
          1 < (Split line ' ').length ∧ nth (Split line ' ') 0 = "MODE" ∧
          nth (Split line ' ') 1 = "READER"
      then "READER" else w.self.mode := by
  unfold handleLine
  simp only
  generalize Split line ' ' = parts
  generalize (if code = 0 ∧ parts.length > 1 then nth parts 1 else nth parts 0) = msgid
  generalize nth parts 0 = cmd
  generalize nth parts 1 = arg
  by_cases hP : (code ≠ 238 ∧ code ≠ 239 ∧ code ≠ 431 ∧ code ≠ 439 ∧ code ≠ 438) ∧
      1 < parts.length ∧ cmd = "MODE" ∧ arg = "READER"
  · obtain ⟨⟨h238, h239, h431, h439, h438⟩, hlen, hmode, hr⟩ := hP
    have hlen2 : parts.length > 1 := hlen
    rw [if_neg h238, if_neg h239, if_neg h431, if_neg h439, if_neg h438, if_pos hlen2,
      if_pos hmode, if_pos ⟨⟨h238, h239, h431, h439, h438⟩, hlen, hmode, hr⟩]
    simp only [handleMODE_mode]
    rw [if_pos hr]
  rw [if_neg hP]
  by_cases h238 : code = 238
  · rw [if_pos h238]
    split <;> rfl
  rw [if_neg h238]
  by_cases h239 : code = 239
  · rw [if_pos h239]
  rw [if_neg h239]
  by_cases h431 : code = 431
  · rw [if_pos h431]
  rw [if_neg h431]
  by_cases h439 : code = 439
  · rw [if_pos h439]
  rw [if_neg h439]
  by_cases h438 : code = 438
  · rw [if_pos h438]
  rw [if_neg h438]
  by_cases hlen : parts.length > 1
  swap
  · rw [if_neg hlen]
  rw [if_pos hlen]
  by_cases hmode : cmd = "MODE"
  · rw [if_pos hmode]
    simp only [handleMODE_mode]
    by_cases hr : arg = "READER"
    · exact absurd ⟨⟨h238, h239, h431, h439, h438⟩, hlen, hmode, hr⟩ hP
    · rw [if_neg hr]
  rw [if_neg hmode]
  by_cases h1 : cmd = "QUIT"
  · rw [if_pos h1]; rfl
  rw [if_neg h1]
  by_cases h2 : cmd = "CHECK"
  · rw [if_pos h2]; exact congrArg _ (handleCHECK_self w arg)
  rw [if_neg h2]
  by_cases h3 : cmd = "TAKETHIS"
  · rw [if_pos h3]; exact congrArg _ (handleTAKETHIS_self u w msgid)
  rw [if_neg h3]
  by_cases h4 : cmd = "ARTICLE"
  · rw [if_pos h4]; exact congrArg _ (handleARTICLE_self u w msgid)
  rw [if_neg h4]
  by_cases h5 : cmd = "POST"
  · rw [if_pos h5]; exact congrArg _ (handlePOST_self u w msgid)
  rw [if_neg h5]
  by_cases h6 : cmd = "IHAVE"
  · rw [if_pos h6]; exact congrArg _ (handleIHAVE_self u w arg)
  rw [if_neg h6]
  by_cases h7 : cmd = "NEWSGROUPS"
  · rw [if_pos h7]; rfl
  rw [if_neg h7]
  by_cases h8 : cmd = "XOVER"
  · rw [if_pos h8]; exact congrArg _ (handleXOVER_self w)
  rw [if_neg h8]
  by_cases h9 : cmd = "GROUP"
  · rw [if_pos h9]; exact handleGROUP_mode w arg
  rw [if_neg h9]
  rfl

/-- The `stream` flag after the capability lines: set by a `STREAMING` or
`POSTIHAVESTREAMING` line and never cleared. -/
theorem capabilityFlags_stream (lines : List String) (flags : Bool × Bool) :
    (capabilityFlags lines flags).1 =
      (flags.1 || lines.any (fun l => decide (l = "STREAMING") ||
        decide (l = "POSTIHAVESTREAMING"))) := by
  induction lines generalizing flags with
  | nil => simp [capabilityFlags]
  | cons l rest ih =>
    unfold capabilityFlags
    by_cases h1 : l = "MODE-READER" ∨ l = "READER"
    · rw [if_pos h1, ih]
      have hs : l ≠ "STREAMING" := by
        rcases h1 with h | h <;> (rw [h]; decide)
      have hp : l ≠ "POSTIHAVESTREAMING" := by
        rcases h1 with h | h <;> (rw [h]; decide)
      simp [hs, hp]
    rw [if_neg h1]
    by_cases h2 : l = "STREAMING"
    · rw [if_pos h2, ih]
      simp [h2]
    rw [if_neg h2]
    by_cases h3 : l = "POSTIHAVESTREAMING"
    · rw [if_pos h3, ih]
      simp [h3]
    rw [if_neg h3, ih]
    simp [h2, h3]

/-- The `success` result of `modeSwitch` in terms of the reply code read. -/
theorem modeSwitch_success (w : World) (mode : String) :
    (modeSwitch w mode).2.1 =
      decide (200 < ((w.print ("MODE " ++ ToUpper mode)).conn.ReadCodeLine (-1)).1 ∧
        ((w.print ("MODE " ++ ToUpper mode)).conn.ReadCodeLine (-1)).1 < 300 ∧
        (ToUpper mode).length > 0) := by
  unfold modeSwitch
  simp only
  generalize ((w.print ("MODE " ++ ToUpper mode)).conn.ReadCodeLine (-1)) = r
  by_cases h : r.1 > 200 ∧ r.1 < 300
  · rw [if_pos h]
    simp [h.1, h.2]
  · rw [if_neg h]
    simp only [Bool.false_eq, decide_eq_false_iff_not]
    intro hh
    exact h ⟨hh.1, hh.2.1⟩


/-! ## C1: the order of the rejection conditions -/

/-- C1. For every header set and database state, when some rejection condition
of the list (invalid newsgroup, newsgroup banned, invalid reference or
message id, article banned, thread banned, have this article locally,
already seen) holds, `checkMIMEHeader` returns the reason of the first one
that holds: the reason is that text (for the third, a text starting with
it). In particular a banned message-id is never reported as
"have this article locally". -/
theorem checkMIMEHeader_first_rejection (u : Util) (daemon : NNTPDaemon) (hdr : MIMEHeader)
    (r : String) (h : firstMatch (specRejectionTable u daemon.database hdr) = some r) :
    HasPrefix (checkMIMEHeader u daemon hdr).1 r = true ∧
    (r ≠ "invalid reference or message id" → (checkMIMEHeader u daemon hdr).1 = r) ∧
    (daemon.database.ArticleBanned (hdr.Get "Message-Id") = true →
      (checkMIMEHeader u daemon hdr).1 ≠ "have this article locally") := by
  simp only [firstMatch, specRejectionTable, List.find?] at h
  simp only [checkMIMEHeader]
  generalize hdr.Get "Newsgroups" = ng at h ⊢
  generalize hdr.Get "References" = ref at h ⊢
  generalize hdr.Get "Message-Id" = msgid at h ⊢
  generalize u.newsgroupValidFormat ng = c1 at h ⊢
  generalize (daemon.database.NewsgroupBanned ng).1 = c2 at h ⊢
  generalize (u.ValidMessageID msgid || (ref != "" && !u.ValidMessageID ref)) = c3 at h ⊢
  generalize daemon.database.ArticleBanned msgid = c4 at h ⊢
  generalize (ref != "" && daemon.database.ArticleBanned ref) = c5 at h ⊢
  generalize daemon.database.HasArticleLocal msgid = c6 at h ⊢
  generalize daemon.database.HasArticle msgid = c7 at h ⊢
  cases c1
  · simp at h; subst h; simp [HasPrefix_self]
  cases c2
  swap
  · simp at h; subst h; simp [HasPrefix_self]
  cases c3
  · simp at h; subst h
    simp [invalid_reason_stem, invalid_reason_ne_local]
  cases c4
  swap
  · simp at h; subst h; simp [HasPrefix_self]
  cases c5
  swap
  · simp at h; subst h; simp [HasPrefix_self]
  cases c6
  swap
  · simp at h; subst h; simp [HasPrefix_self]
  cases c7
  swap
  · simp at h; subst h; simp [HasPrefix_self]
  simp at h

/-- C1 at an article that is banned, seen and stored locally: the first
condition that holds is "article banned", and that is the reason returned,
not "have this article locally". -/
theorem checkMIMEHeader_first_rejection_witness :
    firstMatch (specRejectionTable specUtil (sampleDaemon bannedLocalDatabase).database plainHeader)
        = some "article banned" ∧
    (sampleDaemon bannedLocalDatabase).database.HasArticleLocal (plainHeader.Get "Message-Id")
        = true ∧
    (checkMIMEHeader specUtil (sampleDaemon bannedLocalDatabase) plainHeader).1
        = "article banned" ∧
    (checkMIMEHeader specUtil (sampleDaemon bannedLocalDatabase) plainHeader).1
        ≠ "have this article locally" :=
  have h := checkMIMEHeader_first_rejection specUtil (sampleDaemon bannedLocalDatabase)
    plainHeader "article banned" (by decide)
  ⟨by decide, by decide, h.2.1 (by decide), h.2.2 (by decide)⟩

/-! ## C2: the CHECK command -/

/-- C2. For every `CHECK <id>` line on an open socket, `handleLine` writes
exactly one line and changes nothing else: the line is `438 <id>` if and only
if `HasArticle(id)` or `ArticleBanned(id)` holds, and `238 <id>` if and only
if both are false. -/
theorem handleLine_CHECK (u : Util) (w : World) (line id : String) (rest : List String)
    (hparts : Split line ' ' = "CHECK" :: id :: rest) (hopen : w.conn.closed = false) :
    (handleLine u w 0 line = (w.wrote ("438 " ++ id), none) ∨
      handleLine u w 0 line = (w.wrote ("238 " ++ id), none)) ∧
    (handleLine u w 0 line = (w.wrote ("438 " ++ id), none) ↔
      (w.daemon.database.HasArticle id = true ∨ w.daemon.database.ArticleBanned id = true)) ∧
    (handleLine u w 0 line = (w.wrote ("238 " ++ id), none) ↔
      (w.daemon.database.HasArticle id = false ∧
        w.daemon.database.ArticleBanned id = false)) := by
  have hne : (w.wrote ("438 " ++ id), (none : Option Error)) ≠ (w.wrote ("238 " ++ id), none) :=
    fun h => reply_438_ne_238 id (wrote_inj w _ _ h)
  rw [handleLine_of_CHECK u w line id rest hparts]
  have hp : ∀ s : String, w.print s = w.wrote s := by
    intro s
    simp [World.print, World.wrote, Conn.PrintfLine, hopen]
  unfold handleCHECK
  rw [hp, hp]
  cases hh : w.daemon.database.HasArticle id
  · cases hb : w.daemon.database.ArticleBanned id
    · simp [hne.symm]
    · simp [hne]
  · simp [hne]

/-- C2 at `CHECK <a@b>` for an article that is already seen: the reply is
`438 <a@b>`. -/
theorem handleLine_CHECK_witness :
    Split "CHECK <a@b>" ' ' = ["CHECK", "<a@b>"] ∧
    (sampleWorld bannedLocalDatabase "STREAM" []).conn.closed = false ∧
    handleLine specUtil (sampleWorld bannedLocalDatabase "STREAM" []) 0 "CHECK <a@b>"
      = ((sampleWorld bannedLocalDatabase "STREAM" []).wrote ("438 " ++ "<a@b>"), none) :=
  ⟨by decide, by decide,
    (handleLine_CHECK specUtil (sampleWorld bannedLocalDatabase "STREAM" []) "CHECK <a@b>"
      "<a@b>" [] (by decide) (by decide)).2.1.mpr (Or.inl (by decide))⟩

/-! ## C3: TAKETHIS, the reject branch -/

/-- C3. For every `TAKETHIS <id>` whose header block is read and for which the
filter returns a non-empty reason `r`: the dot-encoded body is read off the
socket and dropped, the store and `infeed_load` are untouched, a ban record
`(id, r)` is persisted so that `ArticleBanned(id)` holds afterwards, and the
line `439 <id> r` is written. -/
theorem handleLine_TAKETHIS_reject (u : Util) (w : World) (line id : String)
    (rest : List String) (hdr : MIMEHeader) (c1 : Conn)
    (hparts : Split line ' ' = "TAKETHIS" :: id :: rest)
    (hread : w.conn.ReadMIMEHeader = (hdr, none, c1))
    (hreason : (checkMIMEHeader u w.daemon hdr).1 ≠ "") :
    (handleLine u w 0 line).1.conn.input = ((dotBlock c1.input).2).getD [] ∧
    (handleLine u w 0 line).1.daemon.store = w.daemon.store ∧
    (handleLine u w 0 line).1.daemon.infeed_load = w.daemon.infeed_load ∧
    (handleLine u w 0 line).1.daemon.database.bans
      = (id, (checkMIMEHeader u w.daemon hdr).1) :: w.daemon.database.bans ∧
    (handleLine u w 0 line).1.daemon.database.ArticleBanned id = true ∧
    (handleLine u w 0 line).1.conn.output
      = w.conn.output ++ ["439 " ++ id ++ " " ++ (checkMIMEHeader u w.daemon hdr).1] := by
  rw [handleLine_of_TAKETHIS u w line id rest hparts,
    handleTAKETHIS_reject u w id hdr c1 hread hreason]
  simp [Database.ArticleBanned]

/-- C3 at an article in the banned group `spam`: the body is consumed, the id
is banned afterwards and the reply is `439 <a@b> newsgroup banned`. -/
theorem handleLine_TAKETHIS_reject_witness :
    (checkMIMEHeader specUtil (sampleWorld spamDatabase "STREAM" spamArticle).daemon
        spamHeader).1 = "newsgroup banned" ∧
    (handleLine specUtil (sampleWorld spamDatabase "STREAM" spamArticle) 0
        "TAKETHIS <a@b>").1.conn.input = ["CHECK <c@d>"] ∧
    (handleLine specUtil (sampleWorld spamDatabase "STREAM" spamArticle) 0
        "TAKETHIS <a@b>").1.daemon.database.ArticleBanned "<a@b>" = true ∧
    (handleLine specUtil (sampleWorld spamDatabase "STREAM" spamArticle) 0
        "TAKETHIS <a@b>").1.conn.output = ["439 <a@b> newsgroup banned"] :=
  have h := handleLine_TAKETHIS_reject specUtil (sampleWorld spamDatabase "STREAM" spamArticle)
    "TAKETHIS <a@b>" "<a@b>" [] spamHeader bodyConn (by decide) (by decide) (by decide)
  ⟨by decide, h.1, h.2.2.2.2.1, h.2.2.2.2.2⟩

/-! ## C4: a reply to a banned thread -/

/-- C4, as stated, fails: a reply `<a@b>` to the banned thread `<root@x>`,
with valid unbanned group and id, is rejected with "thread banned", and
afterwards `ArticleBanned("<a@b>")` is not false. -/
theorem takethis_thread_banned_bans_article :
    specUtil.newsgroupValidFormat (replyHeader.Get "Newsgroups") = true ∧
    (threadBannedDatabase.NewsgroupBanned (replyHeader.Get "Newsgroups")).1 = false ∧
    specUtil.ValidMessageID (replyHeader.Get "Message-Id") = true ∧
    threadBannedDatabase.ArticleBanned (replyHeader.Get "Message-Id") = false ∧
    specUtil.ValidMessageID (replyHeader.Get "References") = true ∧
    threadBannedDatabase.ArticleBanned (replyHeader.Get "References") = true ∧
    (sampleWorld threadBannedDatabase "STREAM" replyArticle).conn.ReadMIMEHeader.1
      = replyHeader ∧
    replyHeader.Get "Message-Id" = "<a@b>" ∧
    (handleLine specUtil (sampleWorld threadBannedDatabase "STREAM" replyArticle) 0
        "TAKETHIS <a@b>").1.conn.output = ["439 <a@b> thread banned"] ∧
    ¬ ((handleLine specUtil (sampleWorld threadBannedDatabase "STREAM" replyArticle) 0
        "TAKETHIS <a@b>").1.daemon.database.ArticleBanned "<a@b>" = false) := by
  decide

/-- C4, amended. For every `TAKETHIS <id>` whose header is read, whose
Newsgroups is valid and unbanned, whose Message-Id is valid and not banned
and whose References is non-empty and banned: the filter's reason is
"thread banned", the reply is `439 <id> thread banned`, and the handler
persists the ban record `(id, "thread banned")` for the offered id. So
`ArticleBanned(id)` holds afterwards, the article's own Message-Id is banned
afterwards exactly when it is the offered id, and no other id changes its
ban status. -/
theorem handleLine_TAKETHIS_thread_banned (u : Util) (w : World) (line id : String)
    (rest : List String) (hdr : MIMEHeader) (c1 : Conn)
    (hparts : Split line ' ' = "TAKETHIS" :: id :: rest)
    (hread : w.conn.ReadMIMEHeader = (hdr, none, c1))
    (h1 : u.newsgroupValidFormat (hdr.Get "Newsgroups") = true)
    (h2 : (w.daemon.database.NewsgroupBanned (hdr.Get "Newsgroups")).1 = false)
    (h3 : u.ValidMessageID (hdr.Get "Message-Id") = true)
    (h4 : w.daemon.database.ArticleBanned (hdr.Get "Message-Id") = false)
    (h6 : hdr.Get "References" ≠ "")
    (h7 : w.daemon.database.ArticleBanned (hdr.Get "References") = true) :
    (checkMIMEHeader u w.daemon hdr).1 = "thread banned" ∧
    (handleLine u w 0 line).1.conn.output = w.conn.output ++ ["439 " ++ id ++ " thread banned"] ∧
    (handleLine u w 0 line).1.daemon.database.bans
      = (id, "thread banned") :: w.daemon.database.bans ∧
    (handleLine u w 0 line).1.daemon.database.ArticleBanned id = true ∧
    (handleLine u w 0 line).1.daemon.database.ArticleBanned (hdr.Get "Message-Id")
      = decide (hdr.Get "Message-Id" = id) ∧
    (∀ m : String, m ≠ id →
      (handleLine u w 0 line).1.daemon.database.ArticleBanned m
        = w.daemon.database.ArticleBanned m) := by
  have hchk := checkMIMEHeader_thread_banned u w.daemon hdr h1 h2 h3 h4 h6 h7
  have hne : (checkMIMEHeader u w.daemon hdr).1 ≠ "" := by rw [hchk]; decide
  rw [handleLine_of_TAKETHIS u w line id rest hparts]
  simp only [handleTAKETHIS_reject u w id hdr c1 hread hne, hchk]
  have e : (" " : String) ++ "thread banned" = " thread banned" := by decide
  have hfalse := h4
  unfold Database.ArticleBanned at hfalse
  refine ⟨trivial, ?_, ?_, ?_, ?_, ?_⟩
  · simp only [String.append_assoc, e]
  · simp
  · simp [Database.ArticleBanned]
  · simp only [Database.ArticleBanned, List.any_cons]
    rw [hfalse, Bool.or_false]
    by_cases hm : hdr.Get "Message-Id" = id
    · simp [hm]
    · simp [hm, Ne.symm hm]
  · intro m hm
    simp [Database.ArticleBanned, Ne.symm hm]

/-- C4, amended, at the reply `<a@b>` to the banned thread `<root@x>`. -/
theorem handleLine_TAKETHIS_thread_banned_witness :
    (handleLine specUtil (sampleWorld threadBannedDatabase "STREAM" replyArticle) 0
        "TAKETHIS <a@b>").1.conn.output = [] ++ ["439 " ++ "<a@b>" ++ " thread banned"] ∧
    (handleLine specUtil (sampleWorld threadBannedDatabase "STREAM" replyArticle) 0
        "TAKETHIS <a@b>").1.daemon.database.ArticleBanned "<a@b>" = true :=
  have h := handleLine_TAKETHIS_thread_banned specUtil
    (sampleWorld threadBannedDatabase "STREAM" replyArticle) "TAKETHIS <a@b>" "<a@b>" []
    replyHeader bodyConn
    (by decide) (by decide) (by decide) (by decide) (by decide) (by decide) (by decide)
    (by decide)
  ⟨h.2.1, h.2.2.2.1⟩


/-! ## C5: failing database queries during filtering -/

/-- C5, as stated, fails: with `NewsgroupBanned` and `CheckEncIPBanned` both
returning an error, the filter's reason is empty (not "database error") for
an anonymous article and for one with an encrypted address, and a TAKETHIS
carrying either article is answered `239 <a@b> gotten` and handed to
`infeed_load`. -/
theorem failed_query_admits :
    (failingDatabase.NewsgroupBanned "overchan.test").2 ≠ none ∧
    (failingDatabase.CheckEncIPBanned "abcdef").2 ≠ none ∧
    checkMIMEHeader specUtil (sampleDaemon failingDatabase) plainHeader = ("", none) ∧
    (checkMIMEHeader specUtil (sampleDaemon failingDatabase) addressedHeader).1 = "" ∧
    (handleLine specUtil (sampleWorld failingDatabase "STREAM" anonArticle) 0
        "TAKETHIS <a@b>").1.conn.output = ["239 <a@b> gotten"] ∧
    (handleLine specUtil (sampleWorld failingDatabase "STREAM" anonArticle) 0
        "TAKETHIS <a@b>").1.daemon.infeed_load = ["<a@b>"] ∧
    (handleLine specUtil (sampleWorld failingDatabase "STREAM" addressedArticle) 0
        "TAKETHIS <a@b>").1.conn.output = ["239 <a@b> gotten"] ∧
    (handleLine specUtil (sampleWorld failingDatabase "STREAM" addressedArticle) 0
        "TAKETHIS <a@b>").1.daemon.infeed_load = ["<a@b>"] := by
  decide

/-- C5, amended. The error of `NewsgroupBanned` is ignored: `checkMIMEHeader`
decides by the returned flag alone, whatever error comes with it. No outcome
of `checkMIMEHeader` has the reason "database error". When none of the seven
rejection conditions holds, the article is not a control message, the poster
is not anonymous and `CheckEncIPBanned` returns an error, `checkMIMEHeader`
returns the empty reason together with that error. -/
theorem checkMIMEHeader_query_errors (u : Util) (daemon : NNTPDaemon) (hdr : MIMEHeader) :
    (∀ e : String → Option Error,
      checkMIMEHeader u
          { daemon with database := { daemon.database with
              NewsgroupBanned := fun g => ((daemon.database.NewsgroupBanned g).1, e g) } } hdr
        = checkMIMEHeader u daemon hdr) ∧
    (checkMIMEHeader u daemon hdr).1 ≠ "database error" ∧
    (∀ (b : Bool) (e : Error),
      firstMatch (specRejectionTable u daemon.database hdr) = none →
      (hdr.Get "Newsgroups" == "ctl" && hdr.Get "X-Pubkey-Ed25519" != "") = false →
      hdr.Get "X-Tor-Poster" = "" → hdr.Get "X-I2p-Desthash" = "" →
      hdr.Get "X-Encrypted-Ip" ≠ "" →
      daemon.database.CheckEncIPBanned (hdr.Get "X-Encrypted-Ip") = (b, some e) →
      checkMIMEHeader u daemon hdr = ("", some e)) := by
  refine ⟨fun e => rfl, checkMIMEHeader_ne_database_error u daemon hdr, ?_⟩
  intro b e h hctl htor hi2p henc hq
  simp only [firstMatch, specRejectionTable, List.find?] at h
  simp only [checkMIMEHeader, hq, htor, hi2p, hctl]
  generalize hdr.Get "Newsgroups" = ng at h ⊢
  generalize hdr.Get "References" = ref at h ⊢
  generalize hdr.Get "Message-Id" = msgid at h ⊢
  generalize u.newsgroupValidFormat ng = c1 at h ⊢
  generalize (daemon.database.NewsgroupBanned ng).1 = c2 at h ⊢
  generalize (u.ValidMessageID msgid || (ref != "" && !u.ValidMessageID ref)) = c3 at h ⊢
  generalize daemon.database.ArticleBanned msgid = c4 at h ⊢
  generalize (ref != "" && daemon.database.ArticleBanned ref) = c5 at h ⊢
  generalize daemon.database.HasArticleLocal msgid = c6 at h ⊢
  generalize daemon.database.HasArticle msgid = c7 at h ⊢
  cases c1 <;> cases c2 <;> cases c3 <;> cases c4 <;> cases c5 <;> cases c6 <;> cases c7 <;>
    first
    | (exfalso; revert h; decide)
    | simp [henc]

/-- C5, amended, at an article with an encrypted address while the address
query fails: the reason is empty and the error is returned. -/
theorem checkMIMEHeader_query_errors_witness :
    checkMIMEHeader specUtil (sampleDaemon failingDatabase) addressedHeader
      = ("", some ⟨"database is down"⟩) :=
  (checkMIMEHeader_query_errors specUtil (sampleDaemon failingDatabase) addressedHeader).2.2
    false ⟨"database is down"⟩
    (by decide) (by decide) (by decide) (by decide) (by decide) (by decide)

/-! ## C6: TAKETHIS while the same id is being loaded -/

/-- C6, as stated, fails: the header of `<a@b>` passes the filter while a sink
for `<a@b>` is live, so `CreateTempFile` answers `nil`; the reply is
`239 <a@b> gotten`, not a 439 line. -/
theorem takethis_busy_replies_239 :
    busyWorld.conn.ReadMIMEHeader.2.1 = none ∧
    (checkMIMEHeader specUtil busyWorld.daemon busyWorld.conn.ReadMIMEHeader.1).1 = "" ∧
    busyWorld.daemon.store.CreateTempFile "<a@b>" = none ∧
    (handleLine specUtil busyWorld 0 "TAKETHIS <a@b>").1.conn.output = ["239 <a@b> gotten"] ∧
    (handleLine specUtil busyWorld 0 "TAKETHIS <a@b>").1.daemon.infeed_load = [] := by
  decide

/-- C6, amended. For every `TAKETHIS <id>` whose header is read and passes the
filter while `CreateTempFile(id)` returns the Busy sentinel: the body is read
off the socket and dropped, the store is unchanged, nothing is sent on
`infeed_load`, and the reply is `239 <id> gotten`. -/
theorem handleLine_TAKETHIS_busy (u : Util) (w : World) (line id : String)
    (rest : List String) (hdr : MIMEHeader) (c1 : Conn)
    (hparts : Split line ' ' = "TAKETHIS" :: id :: rest)
    (hread : w.conn.ReadMIMEHeader = (hdr, none, c1))
    (hreason : (checkMIMEHeader u w.daemon hdr).1 = "")
    (hbusy : w.daemon.store.CreateTempFile id = none) :
    (handleLine u w 0 line).1.conn.input = ((dotBlock c1.input).2).getD [] ∧
    (handleLine u w 0 line).1.daemon.store = w.daemon.store ∧
    (handleLine u w 0 line).1.daemon.infeed_load = w.daemon.infeed_load ∧
    (handleLine u w 0 line).1.conn.output = w.conn.output ++ ["239 " ++ id ++ " gotten"] := by
  rw [handleLine_of_TAKETHIS u w line id rest hparts,
    handleTAKETHIS_busy u w id hdr c1 hread hreason hbusy]
  exact ⟨rfl, askRootPost_store u w.daemon hdr, askRootPost_infeed u w.daemon hdr, rfl⟩

/-- C6, amended, at `TAKETHIS <a@b>` while `<a@b>` is being loaded. -/
theorem handleLine_TAKETHIS_busy_witness :
    (handleLine specUtil busyWorld 0 "TAKETHIS <a@b>").1.conn.input = ["CHECK <c@d>"] ∧
    (handleLine specUtil busyWorld 0 "TAKETHIS <a@b>").1.daemon.store = busyWorld.daemon.store ∧
    (handleLine specUtil busyWorld 0 "TAKETHIS <a@b>").1.daemon.infeed_load = [] ∧
    (handleLine specUtil busyWorld 0 "TAKETHIS <a@b>").1.conn.output
      = [] ++ ["239 " ++ "<a@b>" ++ " gotten"] :=
  handleLine_TAKETHIS_busy specUtil busyWorld "TAKETHIS <a@b>" "<a@b>" [] plainHeader bodyConn
    (by decide) (by decide) (by decide) (by decide)

/-! ## C7: the mode field under `handleLine` -/

/-- C7, as stated, fails: a connection in STREAM mode that receives
`MODE READER` has mode READER afterwards. -/
theorem mode_reader_flips_stream :
    (sampleWorld emptyDatabase "STREAM" []).self.mode = "STREAM" ∧
    (handleLine specUtil (sampleWorld emptyDatabase "STREAM" []) 0 "MODE READER").1.self.mode
      = "READER" ∧
    (handleLine specUtil (sampleWorld emptyDatabase "STREAM" []) 0 "MODE READER").1.self.mode
      ≠ (sampleWorld emptyDatabase "STREAM" []).self.mode := by
  decide

/-- The command `MODE READER` on an open socket: the mode becomes READER, the
line `201 No posting Permitted` is written, and nothing else changes. -/
theorem handleLine_MODE_READER (u : Util) (w : World) (code : Int) (line : String)
    (hcode : code ≠ 238 ∧ code ≠ 239 ∧ code ≠ 431 ∧ code ≠ 439 ∧ code ≠ 438)
    (hlen : 1 < (Split line ' ').length) (hmode : nth (Split line ' ') 0 = "MODE")
    (harg : nth (Split line ' ') 1 = "READER") (hopen : w.conn.closed = false) :
    handleLine u w code line =
      (({ w with self := { w.self with mode := "READER" } } : World).wrote
        "201 No posting Permitted", none) := by
  obtain ⟨h238, h239, h431, h439, h438⟩ := hcode
  unfold handleLine
  simp only
  generalize Split line ' ' = parts at hlen hmode harg
  generalize (if code = 0 ∧ parts.length > 1 then nth parts 1 else nth parts 0) = msgid
  generalize nth parts 0 = cmd at hmode
  generalize nth parts 1 = arg at harg
  have hlen2 : parts.length > 1 := hlen
  rw [if_neg h238, if_neg h239, if_neg h431, if_neg h439, if_neg h438, if_pos hlen2,
    if_pos hmode]
  unfold handleMODE
  rw [if_pos harg]
  simp [World.print, World.wrote, Conn.PrintfLine, hopen]

/-- The command `MODE STREAM` on an open socket: the line
`203 Streaming enabled brah` is written and nothing else changes. -/
theorem handleLine_MODE_STREAM (u : Util) (w : World) (code : Int) (line : String)
    (hcode : code ≠ 238 ∧ code ≠ 239 ∧ code ≠ 431 ∧ code ≠ 439 ∧ code ≠ 438)
    (hlen : 1 < (Split line ' ').length) (hmode : nth (Split line ' ') 0 = "MODE")
    (harg : nth (Split line ' ') 1 = "STREAM") (hopen : w.conn.closed = false) :
    handleLine u w code line = (w.wrote "203 Streaming enabled brah", none) := by
  obtain ⟨h238, h239, h431, h439, h438⟩ := hcode
  unfold handleLine
  simp only
  generalize Split line ' ' = parts at hlen hmode harg
  generalize (if code = 0 ∧ parts.length > 1 then nth parts 1 else nth parts 0) = msgid
  generalize nth parts 0 = cmd at hmode
  generalize nth parts 1 = arg at harg
  have hlen2 : parts.length > 1 := hlen
  have hnr : ¬ arg = "READER" := by rw [harg]; decide
  rw [if_neg h238, if_neg h239, if_neg h431, if_neg h439, if_neg h438, if_pos hlen2,
    if_pos hmode]
  unfold handleMODE
  rw [if_neg hnr, if_pos harg]
  simp [World.print, World.wrote, Conn.PrintfLine, hopen]

/-- C7, amended. For every connection state, code and line, `handleLine`
leaves the mode unchanged unless the line is the command `MODE READER` (first
two tokens `MODE` and `READER`, under a code other than 238, 239, 431, 439,
438), which sets the mode to READER. In particular `MODE STREAM` never
changes the mode (a READER connection stays READER, a STREAM connection stays
STREAM), and `MODE READER` leaves the mode READER whatever it was. On an open
socket the command `MODE READER` does exactly this: it sets the mode to
READER and replies with the one line `201 No posting Permitted`; and the
command `MODE STREAM` only replies `203 Streaming enabled brah`. -/
theorem handleLine_mode (u : Util) (w : World) (code : Int) (line : String) :
    ((handleLine u w code line).1.self.mode =
      if (code ≠ 238 ∧ code ≠ 239 ∧ code ≠ 431 ∧ code ≠ 439 ∧ code ≠ 438) ∧
          1 < (Split line ' ').length ∧ nth (Split line ' ') 0 = "MODE" ∧
          nth (Split line ' ') 1 = "READER"
      then "READER" else w.self.mode) ∧
    (handleLine u w 0 "MODE STREAM").1.self.mode = w.self.mode ∧
    (handleLine u w 0 "MODE READER").1.self.mode = "READER" ∧
    (w.conn.closed = false →
      (code ≠ 238 ∧ code ≠ 239 ∧ code ≠ 431 ∧ code ≠ 439 ∧ code ≠ 438) →
      1 < (Split line ' ').length → nth (Split line ' ') 0 = "MODE" →
      nth (Split line ' ') 1 = "READER" →
      handleLine u w code line =
        (({ w with self := { w.self with mode := "READER" } } : World).wrote
          "201 No posting Permitted", none) ∧
      (handleLine u w code line).1.conn.output
        = w.conn.output ++ ["201 No posting Permitted"]) ∧
    (w.conn.closed = false →
      (code ≠ 238 ∧ code ≠ 239 ∧ code ≠ 431 ∧ code ≠ 439 ∧ code ≠ 438) →
      1 < (Split line ' ').length → nth (Split line ' ') 0 = "MODE" →
      nth (Split line ' ') 1 = "STREAM" →
      handleLine u w code line = (w.wrote "203 Streaming enabled brah", none)) := by
  refine ⟨mode_after_handleLine u w code line, ?_, ?_, ?_, ?_⟩
  · rw [mode_after_handleLine]
    have h : Split "MODE STREAM" ' ' = ["MODE", "STREAM"] := by decide
    rw [h]
    simp [nth]
  · rw [mode_after_handleLine]
    have h : Split "MODE READER" ' ' = ["MODE", "READER"] := by decide
    rw [h]
    simp [nth]
  · intro hopen hcode hlen hmode harg
    have h := handleLine_MODE_READER u w code line hcode hlen hmode harg hopen
    refine ⟨h, ?_⟩
    rw [h]
    rfl
  · intro hopen hcode hlen hmode harg
    exact handleLine_MODE_STREAM u w code line hcode hlen hmode harg hopen

/-- C7, amended, at a connection in STREAM mode that receives `MODE READER`
on an open socket: the mode is READER afterwards and the only line written is
`201 No posting Permitted`; the same connection receiving `MODE STREAM` keeps
its mode and is answered 203. -/
theorem handleLine_mode_witness :
    (sampleWorld emptyDatabase "STREAM" []).conn.closed = false ∧
    (handleLine specUtil (sampleWorld emptyDatabase "STREAM" []) 0
        "MODE READER").1.self.mode = "READER" ∧
    (handleLine specUtil (sampleWorld emptyDatabase "STREAM" []) 0
        "MODE READER").1.conn.output = [] ++ ["201 No posting Permitted"] ∧
    (handleLine specUtil (sampleWorld emptyDatabase "STREAM" []) 0
        "MODE STREAM").1.self.mode = "STREAM" ∧
    (handleLine specUtil (sampleWorld emptyDatabase "STREAM" []) 0
        "MODE STREAM").1.conn.output = ["203 Streaming enabled brah"] :=
  have hr := (handleLine_mode specUtil (sampleWorld emptyDatabase "STREAM" []) 0
    "MODE READER").2.2.2.1 (by decide) (by decide) (by decide) (by decide) (by decide)
  have hs := (handleLine_mode specUtil (sampleWorld emptyDatabase "STREAM" []) 0
    "MODE STREAM").2.2.2.2 (by decide) (by decide) (by decide) (by decide) (by decide)
  ⟨by decide, (handleLine_mode specUtil (sampleWorld emptyDatabase "STREAM" []) 0
      "MODE READER").2.2.1, hr.2, by rw [hs]; decide, by rw [hs]; decide⟩

/-! ## C8: `modeSwitch` and the reply code 200 -/

/-- C8, the code at the failing input: `modeSwitch` succeeds exactly when the
reply code read lies strictly between 200 and 300 (and the mode is
non-empty). So after `MODE READER` is sent and the peer answers
`200 Posting allowed`, it returns `success = false` with a nil error and
leaves the mode empty, while the answer 201 is accepted and sets the mode. -/
theorem modeSwitch_reply_200 :
    (∀ (w : World) (mode : String),
      (modeSwitch w mode).2.1 =
        decide (200 < ((w.print ("MODE " ++ ToUpper mode)).conn.ReadCodeLine (-1)).1 ∧
          ((w.print ("MODE " ++ ToUpper mode)).conn.ReadCodeLine (-1)).1 < 300 ∧
          (ToUpper mode).length > 0)) ∧
    (modeSwitch (sampleWorld emptyDatabase "" ["200 Posting allowed"]) "reader").1.conn.output
      = ["MODE READER"] ∧
    (modeSwitch (sampleWorld emptyDatabase "" ["200 Posting allowed"]) "reader").2.1 = false ∧
    (modeSwitch (sampleWorld emptyDatabase "" ["200 Posting allowed"]) "reader").2.2 = none ∧
    (modeSwitch (sampleWorld emptyDatabase "" ["200 Posting allowed"]) "reader").1.self.mode = "" ∧
    (modeSwitch (sampleWorld emptyDatabase "" ["201 Posting prohibited"]) "reader").2.1 = true ∧
    (modeSwitch (sampleWorld emptyDatabase "" ["201 Posting prohibited"]) "reader").1.self.mode
      = "READER" := by
  refine ⟨modeSwitch_success, ?_, ?_, ?_, ?_, ?_, ?_⟩
  all_goals decide

/-! ## C9: the capability list -/

/-- C9, the code at the failing input: the `stream` flag is true exactly when
some capability line is `STREAMING` or `POSTIHAVESTREAMING`, but for the
list `VERSION 2, POSTIHAVESTREAMING, READER` after a 200 greeting
`outboundHandshake` returns `reader = true`; only with the `READER` line
before the sentinel does it return `reader = false`. -/
theorem outboundHandshake_reader_after_sentinel :
    (∀ lines : List String,
      (capabilityFlags lines (false, false)).1 =
        lines.any (fun l => decide (l = "STREAMING") || decide (l = "POSTIHAVESTREAMING"))) ∧
    (outboundHandshake (sampleWorld emptyDatabase ""
        ["200 welcome", "VERSION 2", "POSTIHAVESTREAMING", "READER", "."])).map
      (fun r => (r.2.1, r.2.2.1, r.2.2.2)) = some (true, true, none) ∧
    (outboundHandshake (sampleWorld emptyDatabase ""
        ["200 welcome", "VERSION 2", "READER", "POSTIHAVESTREAMING", "."])).map
      (fun r => (r.2.1, r.2.2.1, r.2.2.2)) = some (true, false, none) := by
  refine ⟨fun lines => ?_, ?_, ?_⟩
  · rw [capabilityFlags_stream]
    simp
  all_goals decide

/-! ## C10: QUIT in an established mode -/

/-- C10, the code at the failing input: under code 0 the line `QUIT` is one
token, so `handleLine` does nothing at all and returns nil. A connection in
READER mode that receives `QUIT` and then `CHECK <a@b>` keeps its socket open
after the first line, goes round the loop again, and answers the CHECK. The
branch of `runConnection` for a connection without a mode does close on
`QUIT`. -/
theorem handleLine_bare_QUIT :
    (∀ (u : Util) (w : World), handleLine u w 0 "QUIT" = (w, none)) ∧
    (runConnectionStep specUtil true false false ""
        (sampleWorld emptyDatabase "READER" ["QUIT", "CHECK <a@b>"]) false).2.2 = Flow.loop none ∧
    (runConnectionStep specUtil true false false ""
        (sampleWorld emptyDatabase "READER" ["QUIT", "CHECK <a@b>"]) false).1.conn
      = { input := ["CHECK <a@b>"], output := [], closed := false, dot := false } ∧
    (runConnection specUtil true false false "" 2
        (sampleWorld emptyDatabase "READER" ["QUIT", "CHECK <a@b>"])).isSome = false ∧
    (runConnection specUtil true false false "" 3
        (sampleWorld emptyDatabase "READER" ["QUIT", "CHECK <a@b>"])).map (fun r => r.1.conn.output)
      = some ["238 <a@b>"] ∧
    (runConnectionStep specUtil true false false ""
        (sampleWorld emptyDatabase "" ["QUIT", "CHECK <a@b>"]) false).2.2 = Flow.returned ∧
    (runConnectionStep specUtil true false false ""
        (sampleWorld emptyDatabase "" ["QUIT", "CHECK <a@b>"]) false).1.conn
      = { input := ["CHECK <a@b>"], output := ["205 bai"], closed := true, dot := false } := by
  refine ⟨fun u w => ?_, ?_, ?_, ?_, ?_, ?_, ?_⟩
  · have h : Split "QUIT" ' ' = ["QUIT"] := by decide
    simp [handleLine, h]
  all_goals decide

/-! ## The poster rules of the filter: auxiliary facts -/

/-- Past the seven rejection conditions, with the address query answering
without error, the filter returns the decision of the poster rules. -/
theorem checkMIMEHeader_poster (u : Util) (daemon : NNTPDaemon) (hdr : MIMEHeader)
    (h : firstMatch (specRejectionTable u daemon.database hdr) = none)
    (hq : (daemon.database.CheckEncIPBanned (hdr.Get "X-Encrypted-Ip")).2 = none) :
    checkMIMEHeader u daemon hdr = (specPosterRule daemon hdr, none) := by
  simp only [firstMatch, specRejectionTable, List.find?] at h
  simp only [checkMIMEHeader, specPosterRule]
  generalize hdr.Get "Newsgroups" = ng at h ⊢
  generalize hdr.Get "References" = ref at h ⊢
  generalize hdr.Get "Message-Id" = msgid at h ⊢
  generalize hdr.Get "X-Encrypted-Ip" = enc at hq ⊢
  generalize hdr.Get "X-Pubkey-Ed25519" = key
  generalize hdr.Get "X-Tor-Poster" = tor
  generalize hdr.Get "X-I2p-Desthash" = i2p
  generalize hdr.Get "Content-Type" = ctype
  generalize u.newsgroupValidFormat ng = c1 at h ⊢
  generalize (daemon.database.NewsgroupBanned ng).1 = c2 at h ⊢
  generalize (u.ValidMessageID msgid || (ref != "" && !u.ValidMessageID ref)) = c3 at h ⊢
  generalize daemon.database.ArticleBanned msgid = c4 at h ⊢
  generalize (ref != "" && daemon.database.ArticleBanned ref) = c5 at h ⊢
  generalize daemon.database.HasArticleLocal msgid = c6 at h ⊢
  generalize daemon.database.HasArticle msgid = c7 at h ⊢
  generalize daemon.allow_anon = aa
  generalize daemon.allow_anon_attachments = aat
  generalize HasPrefix ctype "multipart/mixed" = att
  rcases hq2 : daemon.database.CheckEncIPBanned enc with ⟨b, e⟩
  rw [hq2] at hq
  simp only at hq
  subst hq
  cases c1 <;> cases c2 <;> cases c3 <;> cases c4 <;> cases c5 <;> cases c6 <;> cases c7 <;>
    first
    | (exfalso; revert h; decide)
    | skip
  clear h
  by_cases hctl : ng = "ctl" <;> by_cases hkey : key = "" <;> by_cases htor : tor = "" <;>
    by_cases hi2p : i2p = "" <;> by_cases henc : enc = "" <;>
    cases aa <;> cases aat <;> cases att <;> cases b <;>
    simp [hctl, hkey, htor, hi2p, henc]

/-- With an empty References header and a valid, unbanned group, an invalid
Message-Id is refused with the reason naming both ids. -/
theorem checkMIMEHeader_invalid_id (u : Util) (daemon : NNTPDaemon) (hdr : MIMEHeader)
    (href : hdr.Get "References" = "")
    (hng : u.newsgroupValidFormat (hdr.Get "Newsgroups") = true)
    (hnb : (daemon.database.NewsgroupBanned (hdr.Get "Newsgroups")).1 = false)
    (hv : u.ValidMessageID (hdr.Get "Message-Id") = false) :
    checkMIMEHeader u daemon hdr =
      ("invalid reference or message id is '" ++ hdr.Get "Message-Id" ++ "' reference is '"
        ++ hdr.Get "References" ++ "'", none) := by
  simp only [checkMIMEHeader]
  rw [href] at *
  generalize hdr.Get "Newsgroups" = ng at *
  generalize hdr.Get "Message-Id" = msgid at *
  simp [hng, hnb, hv]

theorem invalid_reason_ne_empty (a b : String) :
    "invalid reference or message id is '" ++ a ++ "' reference is '" ++ b ++ "'" ≠ "" := by
  intro heq
  have h := invalid_reason_stem a b
  rw [heq] at h
  revert h
  decide

/-! ## C11: the poster rules -/

/-- C11. For every header set that none of the seven rejection conditions
rejects and every database state whose address query answers without error,
`checkMIMEHeader` returns the decision of the poster rules with a nil error:
admit for a signed control message whatever the other headers say, the two
anonymous refusals under the configuration flags, "address banned" for a
banned encrypted address, and admit otherwise. -/
theorem checkMIMEHeader_decision_table (u : Util) (daemon : NNTPDaemon) (hdr : MIMEHeader)
    (h : firstMatch (specRejectionTable u daemon.database hdr) = none)
    (hq : (daemon.database.CheckEncIPBanned (hdr.Get "X-Encrypted-Ip")).2 = none) :
    checkMIMEHeader u daemon hdr = (specPosterRule daemon hdr, none) ∧
    (hdr.Get "Newsgroups" = "ctl" → hdr.Get "X-Pubkey-Ed25519" ≠ "" →
      checkMIMEHeader u daemon hdr = ("", none)) := by
  have hp := checkMIMEHeader_poster u daemon hdr h hq
  refine ⟨hp, fun hctl hkey => ?_⟩
  rw [hp]
  unfold specPosterRule
  rw [if_pos ⟨hctl, hkey⟩]

/-- C11 at an article whose poster has the banned address `abcdef`: no
rejection condition holds and the decision is "address banned". -/
theorem checkMIMEHeader_decision_table_witness :
    firstMatch (specRejectionTable specUtil (sampleDaemon addressBannedDatabase).database
      addressedHeader) = none ∧
    checkMIMEHeader specUtil (sampleDaemon addressBannedDatabase) addressedHeader
      = ("address banned", none) :=
  ⟨by decide,
    (checkMIMEHeader_decision_table specUtil (sampleDaemon addressBannedDatabase) addressedHeader
      (by decide) (by decide)).1⟩

/-! ## C12: an empty References header -/

/-- C12. For every header set with an empty References header, a valid and
unbanned group, a Message-Id that is neither banned nor stored locally nor
seen, and poster rules that admit: `checkMIMEHeader` admits (empty reason, nil
error) if and only if the Message-Id is valid, and for an invalid Message-Id
the reason starts with "invalid reference or message id". -/
theorem checkMIMEHeader_empty_references (u : Util) (daemon : NNTPDaemon) (hdr : MIMEHeader)
    (href : hdr.Get "References" = "")
    (hng : u.newsgroupValidFormat (hdr.Get "Newsgroups") = true)
    (hnb : (daemon.database.NewsgroupBanned (hdr.Get "Newsgroups")).1 = false)
    (hban : daemon.database.ArticleBanned (hdr.Get "Message-Id") = false)
    (hloc : daemon.database.HasArticleLocal (hdr.Get "Message-Id") = false)
    (hseen : daemon.database.HasArticle (hdr.Get "Message-Id") = false)
    (hrule : specPosterRule daemon hdr = "")
    (hq : (daemon.database.CheckEncIPBanned (hdr.Get "X-Encrypted-Ip")).2 = none) :
    (checkMIMEHeader u daemon hdr = ("", none) ↔
      u.ValidMessageID (hdr.Get "Message-Id") = true) ∧
    (u.ValidMessageID (hdr.Get "Message-Id") = false →
      HasPrefix (checkMIMEHeader u daemon hdr).1 "invalid reference or message id" = true) := by
  cases hv : u.ValidMessageID (hdr.Get "Message-Id")
  · have hc := checkMIMEHeader_invalid_id u daemon hdr href hng hnb hv
    rw [hc]
    refine ⟨⟨fun heq => ?_, fun hf => absurd hf (by decide)⟩, fun _ => invalid_reason_stem _ _⟩
    exact absurd (Prod.mk.inj heq).1 (invalid_reason_ne_empty _ _)
  · have hnone : firstMatch (specRejectionTable u daemon.database hdr) = none := by
      simp [firstMatch, specRejectionTable, List.find?, href, hng, hnb, hban, hloc, hseen, hv]
    rw [checkMIMEHeader_poster u daemon hdr hnone hq, hrule]
    exact ⟨⟨fun _ => rfl, fun _ => rfl⟩, fun hf => absurd hf (by decide)⟩

/-- C12 at the plain article `<a@b>` without References: the id is valid and
the article is admitted. -/
theorem checkMIMEHeader_empty_references_witness :
    specUtil.ValidMessageID (plainHeader.Get "Message-Id") = true ∧
    checkMIMEHeader specUtil (sampleDaemon emptyDatabase) plainHeader = ("", none) :=
  ⟨by decide,
    (checkMIMEHeader_empty_references specUtil (sampleDaemon emptyDatabase) plainHeader
      (by decide) (by decide) (by decide) (by decide) (by decide) (by decide) (by decide)
      (by decide)).1.mpr (by decide)⟩

/-! ## TAKETHIS, the admit branch: auxiliary facts -/

/-- What `askRootPost` sends on `ask_for_article`. -/
theorem askRootPost_ask (u : Util) (daemon : NNTPDaemon) (hdr : MIMEHeader) :
    (askRootPost u daemon hdr).ask_for_article =
      daemon.ask_for_article ++
        (if hdr.Get "References" ≠ "" ∧ u.ValidMessageID (hdr.Get "References") = true ∧
            daemon.store.HasArticle (hdr.Get "References") = false ∧
            daemon.database.IsExpired (hdr.Get "References") = false
          then [(hdr.Get "References", hdr.Get "Newsgroups")] else []) := by
  unfold askRootPost
  simp only
  generalize hdr.Get "References" = ref
  generalize hdr.Get "Newsgroups" = ng
  by_cases h1 : ref = "" <;> cases h2 : u.ValidMessageID ref <;>
    cases h3 : daemon.store.HasArticle ref <;> cases h4 : daemon.database.IsExpired ref <;>
    simp [h1]

theorem askRootPost_database (u : Util) (daemon : NNTPDaemon) (hdr : MIMEHeader) :
    (askRootPost u daemon hdr).database = daemon.database := by
  unfold askRootPost
  simp only
  split <;> rfl

theorem storeArticle_ask (daemon : NNTPDaemon) (conn : Conn) (msgid : String)
    (hdr : MIMEHeader) (err : Option Error) :
    (storeArticle daemon conn msgid hdr err).1.ask_for_article = daemon.ask_for_article := by
  unfold storeArticle
  split
  · rfl
  · simp only
    split <;> rfl

theorem storeArticle_database (daemon : NNTPDaemon) (conn : Conn) (msgid : String)
    (hdr : MIMEHeader) (err : Option Error) :
    (storeArticle daemon conn msgid hdr err).1.database = daemon.database := by
  unfold storeArticle
  split
  · rfl
  · simp only
    split <;> rfl

/-- The TAKETHIS handler on an article whose header is read and admitted:
whatever happens to the sink, `ask_for_article` holds what `askRootPost` sent. -/
theorem handleTAKETHIS_admitted_ask (u : Util) (w : World) (id : String) (hdr : MIMEHeader)
    (c1 : Conn) (hread : w.conn.ReadMIMEHeader = (hdr, none, c1))
    (hreason : (checkMIMEHeader u w.daemon hdr).1 = "") :
    (handleTAKETHIS u w id).1.daemon.ask_for_article
      = (askRootPost u w.daemon hdr).ask_for_article := by
  have hlen : ¬ (checkMIMEHeader u w.daemon hdr).1.length > 0 := by
    rw [hreason]; decide
  simp only [handleTAKETHIS, hread, hlen, if_false, World.print]
  exact storeArticle_ask _ _ _ _ _

/-- The TAKETHIS handler on an article whose header is read and admitted, with
a sink handed out and the body read to its terminator. -/
theorem handleTAKETHIS_admitted (u : Util) (w : World) (id : String) (hdr : MIMEHeader)
    (c1 : Conn) (store1 : ArticleStore) (rest : List String)
    (hread : w.conn.ReadMIMEHeader = (hdr, none, c1))
    (hreason : (checkMIMEHeader u w.daemon hdr).1 = "")
    (hsink : w.daemon.store.CreateTempFile id = some store1)
    (hbody : (dotBlock c1.input).2 = some rest) :
    handleTAKETHIS u w id =
      ({ w with
          daemon := { askRootPost u w.daemon hdr with
            store := (store1.writeTemp id
              (writeMIMEHeader hdr ++ (dotBlock c1.input).1)).closeTemp id
            infeed_load := w.daemon.infeed_load ++ [id] }
          conn := { c1 with
            input := rest
            output := w.conn.output ++ ["239 " ++ id ++ " gotten"] } }, none) := by
  obtain ⟨hc, hd, ho⟩ := ReadMIMEHeader_ok _ _ _ hread
  have hlen : ¬ (checkMIMEHeader u w.daemon hdr).1.length > 0 := by
    rw [hreason]; decide
  have hrd : c1.DotReader.readDot
      = ((dotBlock c1.input).1, none, { c1 with input := rest }) := by
    unfold Conn.DotReader
    rw [closeDot_of_dot_false c1 hd]
    unfold Conn.readDot
    simp only [hc]
    cases hb : dotBlock c1.input with
    | mk ls r =>
      rw [hb] at hbody
      simp only at hbody
      subst hbody
      simp [hd]
  simp only [handleTAKETHIS, hread, hlen, storeArticle, askRootPost_store, hsink, hrd,
    askRootPost_infeed]
  simp [World.print, Conn.PrintfLine, hc, ho]

/-- The sink that `CreateTempFile`, the writes and `Close` leave at the head of
the store's list. -/
theorem sink_after_store (store store1 : ArticleStore) (id : String) (lines : List String)
    (hsink : store.CreateTempFile id = some store1) :
    ((store1.writeTemp id lines).closeTemp id).temp.head? = some ⟨id, lines, true⟩ := by
  unfold ArticleStore.CreateTempFile at hsink
  split at hsink
  · exact absurd hsink (by simp)
  · simp only [Option.some.injEq] at hsink
    subst hsink
    simp [ArticleStore.writeTemp, ArticleStore.closeTemp]

/-! ## C13: TAKETHIS, the admit branch -/

/-- C13. For every `TAKETHIS <id>` whose header is read and admitted by the
filter: exactly when References is non-empty, a valid message-id, not in the
store and not expired, the entry `(References, Newsgroups)` is sent on
`ask_for_article`, and nothing is sent there otherwise; and when a sink is
obtained and the body is read to its end, `id` is sent once on `infeed_load`
and the reply is `239 <id> gotten`. -/
theorem handleLine_TAKETHIS_admitted (u : Util) (w : World) (line id : String)
    (rest : List String) (hdr : MIMEHeader) (c1 : Conn)
    (hparts : Split line ' ' = "TAKETHIS" :: id :: rest)
    (hread : w.conn.ReadMIMEHeader = (hdr, none, c1))
    (hreason : (checkMIMEHeader u w.daemon hdr).1 = "") :
    (handleLine u w 0 line).1.daemon.ask_for_article =
      w.daemon.ask_for_article ++
        (if hdr.Get "References" ≠ "" ∧ u.ValidMessageID (hdr.Get "References") = true ∧
            w.daemon.store.HasArticle (hdr.Get "References") = false ∧
            w.daemon.database.IsExpired (hdr.Get "References") = false
          then [(hdr.Get "References", hdr.Get "Newsgroups")] else []) ∧
    (∀ (store1 : ArticleStore) (after : List String),
      w.daemon.store.CreateTempFile id = some store1 →
      (dotBlock c1.input).2 = some after →
      (handleLine u w 0 line).1.daemon.infeed_load = w.daemon.infeed_load ++ [id] ∧
      (handleLine u w 0 line).1.conn.output = w.conn.output ++ ["239 " ++ id ++ " gotten"] ∧
      (handleLine u w 0 line).2 = none) := by
  rw [handleLine_of_TAKETHIS u w line id rest hparts]
  refine ⟨?_, fun store1 after hsink hbody => ?_⟩
  · rw [handleTAKETHIS_admitted_ask u w id hdr c1 hread hreason, askRootPost_ask]
  · rw [handleTAKETHIS_admitted u w id hdr c1 store1 after hread hreason hsink hbody]
    exact ⟨rfl, rfl, rfl⟩

/-- C13 at a reply `<a@b>` to the unknown root `<root@x>`: the root is asked
for, the id goes to `infeed_load`, and the reply is `239 <a@b> gotten`. -/
theorem handleLine_TAKETHIS_admitted_witness :
    (handleLine specUtil (sampleWorld emptyDatabase "STREAM" replyArticle) 0
        "TAKETHIS <a@b>").1.daemon.ask_for_article = [("<root@x>", "overchan.test")] ∧
    (handleLine specUtil (sampleWorld emptyDatabase "STREAM" replyArticle) 0
        "TAKETHIS <a@b>").1.daemon.infeed_load = [] ++ ["<a@b>"] ∧
    (handleLine specUtil (sampleWorld emptyDatabase "STREAM" replyArticle) 0
        "TAKETHIS <a@b>").1.conn.output = [] ++ ["239 " ++ "<a@b>" ++ " gotten"] :=
  have h := handleLine_TAKETHIS_admitted specUtil (sampleWorld emptyDatabase "STREAM" replyArticle)
    "TAKETHIS <a@b>" "<a@b>" [] replyHeader bodyConn (by decide) (by decide) (by decide)
  have h2 := h.2 { directory := "store", files := [], temp := [⟨"<a@b>", [], false⟩] }
    ["CHECK <c@d>"] (by decide) (by decide)
  ⟨h.1.trans (by decide), h2.1, h2.2.1⟩

/-! ## POST: auxiliary facts -/

theorem lookup_set_ne (hdr : MIMEHeader) (k k2 : String) (vals : List String) (h : k2 ≠ k) :
    (hdr.set k vals).lookup k2 = hdr.lookup k2 := by
  have hmap : ∀ l : MIMEHeader,
      (l.map (fun e => if e.1 = k then (k, vals) else e)).find? (fun e => decide (e.1 = k2))
        = l.find? (fun e => decide (e.1 = k2)) := by
    intro l
    induction l with
    | nil => rfl
    | cons e es ih =>
      rw [List.map_cons, List.find?_cons, List.find?_cons, ih]
      by_cases hk : e.1 = k
      · have he : ¬ e.1 = k2 := fun h2 => h (h2.symm.trans hk)
        have d1 : decide (((k, vals) : String × List String).1 = k2) = false := by
          simp [Ne.symm h]
        have d2 : decide (e.1 = k2) = false := by simp [he]
        rw [if_pos hk, d1, d2]
      · rw [if_neg hk]
  unfold MIMEHeader.set MIMEHeader.lookup
  split
  · rw [hmap]
  · rw [List.find?_append]
    cases hf : List.find? (fun e => decide (e.1 = k2)) hdr with
    | some e => simp
    | none => simp [List.find?, Ne.symm h]

/-- An assignment under one key does not change what `Get` returns for a key
whose canonical form is another. -/
theorem Get_set_ne (hdr : MIMEHeader) (k key : String) (vals : List String)
    (h : CanonicalMIMEHeaderKey key ≠ k) : (hdr.set k vals).Get key = hdr.Get key := by
  unfold MIMEHeader.Get
  rw [lookup_set_ne hdr k _ vals h]

/-- The filter does not see what is stored under the literal key `Message-ID`. -/
theorem checkMIMEHeader_set_Message_ID (u : Util) (daemon : NNTPDaemon) (hdr : MIMEHeader)
    (vals : List String) :
    checkMIMEHeader u daemon (hdr.set "Message-ID" vals) = checkMIMEHeader u daemon hdr := by
  unfold checkMIMEHeader
  rw [Get_set_ne hdr "Message-ID" "Newsgroups" vals (by decide),
    Get_set_ne hdr "Message-ID" "References" vals (by decide),
    Get_set_ne hdr "Message-ID" "Message-Id" vals (by decide),
    Get_set_ne hdr "Message-ID" "X-Encrypted-Ip" vals (by decide),
    Get_set_ne hdr "Message-ID" "X-Tor-Poster" vals (by decide),
    Get_set_ne hdr "Message-ID" "X-I2p-Desthash" vals (by decide),
    Get_set_ne hdr "Message-ID" "Content-Type" vals (by decide),
    Get_set_ne hdr "Message-ID" "X-Pubkey-Ed25519" vals (by decide)]

theorem closeDot_with_output (c : Conn) (o : List String) :
    ({ c with output := o } : Conn).closeDot = { c.closeDot with output := o } := by
  unfold Conn.closeDot Conn.readDot
  simp only
  split
  · split
    · rfl
    · split <;> rfl
  · rfl

theorem ReadMIMEHeader_with_output (c : Conn) (o : List String) :
    ({ c with output := o } : Conn).ReadMIMEHeader =
      (c.ReadMIMEHeader.1, c.ReadMIMEHeader.2.1, { c.ReadMIMEHeader.2.2 with output := o }) := by
  unfold Conn.ReadMIMEHeader
  simp only [closeDot_with_output]
  split <;> rfl

/-- Reading the header after one more line was written: the same header, on
the socket with that line written. -/
theorem ReadMIMEHeader_after_print (w : World) (s : String) (hdr : MIMEHeader) (c1 : Conn)
    (hread : w.conn.ReadMIMEHeader = (hdr, none, c1)) :
    (w.print s).conn.ReadMIMEHeader
      = (hdr, none, { c1 with output := w.conn.output ++ [s] }) := by
  have hclosed : w.conn.closed = false := by
    unfold Conn.ReadMIMEHeader at hread
    simp only at hread
    split at hread
    · simp [errClosed] at hread
    · rename_i hc
      simpa [closeDot_closed] using hc
  have hp : (w.print s).conn = { w.conn with output := w.conn.output ++ [s] } := by
    simp [World.print, Conn.PrintfLine, hclosed]
  rw [hp, ReadMIMEHeader_with_output, hread]

/-- The POST handler on a submission whose header is read and which the
filter refuses: only the two reply lines are written. -/
theorem handlePOST_refused (u : Util) (w : World) (a : String) (hdr : MIMEHeader) (c1 : Conn)
    (hread : w.conn.ReadMIMEHeader = (hdr, none, c1))
    (hreason : (checkMIMEHeader u w.daemon hdr).1 ≠ "") :
    handlePOST u w a =
      { w with conn := { c1 with
          output := w.conn.output ++
            ["340 Post it; end with <CR-LF>.<CR-LF>", "441 Posting Failed"] } } := by
  obtain ⟨hc, -, -⟩ := ReadMIMEHeader_ok _ _ _ hread
  unfold handlePOST
  simp only [ReadMIMEHeader_after_print w _ hdr c1 hread]
  have hd : (w.print "340 Post it; end with <CR-LF>.<CR-LF>").daemon = w.daemon := rfl
  simp only [hd, checkMIMEHeader_set_Message_ID]
  have hne : ((checkMIMEHeader u w.daemon hdr).1 == "") = false := by
    simpa using hreason
  simp [hne, World.print, Conn.PrintfLine, hc]

/-! ## C14: the id a POST is stored under -/

/-- C14, the code at the failing input: the submission `POST now` with a
header of its own is accepted with 240; the fresh id `<fresh1@node>` is put in
the stored header under `Message-ID`, but the sink is created under the
command token `now` and `now` is what goes to `infeed_load`. -/
theorem post_stored_under_command_token :
    specUtil.genMessageID (sampleWorld emptyDatabase "READER" postedArticle).daemon.instance_name
      = "<fresh1@node>" ∧
    (handleLine specUtil (sampleWorld emptyDatabase "READER" postedArticle) 0
        "POST now").1.conn.output
      = ["340 Post it; end with <CR-LF>.<CR-LF>", "240 We got it, thnkxbai"] ∧
    (handleLine specUtil (sampleWorld emptyDatabase "READER" postedArticle) 0
        "POST now").1.daemon.store.temp
      = [⟨"now", ["Newsgroups: overchan.test", "Message-Id: <mine@poster>",
          "Message-ID: <fresh1@node>", "", "hello"], true⟩] ∧
    (handleLine specUtil (sampleWorld emptyDatabase "READER" postedArticle) 0
        "POST now").1.daemon.infeed_load = ["now"] ∧
    (handleLine specUtil (sampleWorld emptyDatabase "READER" postedArticle) 0
        "POST now").1.daemon.infeed_load ≠ ["<fresh1@node>"] := by
  decide

/-! ## Splitting: auxiliary facts -/

theorem splitChars_no_sep (sep : Char) (a : List Char) (h : sep ∉ a) :
    splitChars sep a = [a] := by
  induction a with
  | nil => rfl
  | cons c cs ih =>
    have hc : c ≠ sep := fun e => h (by rw [e]; exact List.mem_cons_self _ _)
    have hcs : sep ∉ cs := fun e => h (List.mem_cons_of_mem _ e)
    unfold splitChars
    rw [if_neg hc, ih hcs]

theorem splitChars_append_sep (sep : Char) (a b : List Char) (h : sep ∉ a) :
    splitChars sep (a ++ sep :: b) = a :: splitChars sep b := by
  induction a with
  | nil =>
    show splitChars sep (sep :: b) = [] :: splitChars sep b
    rw [splitChars, if_pos rfl]
  | cons c cs ih =>
    have hc : c ≠ sep := fun e => h (by rw [e]; exact List.mem_cons_self _ _)
    have hcs : sep ∉ cs := fun e => h (List.mem_cons_of_mem _ e)
    show splitChars sep (c :: (cs ++ sep :: b)) = (c :: cs) :: splitChars sep b
    rw [splitChars, if_neg hc, ih hcs]

theorem splitChars_pieces (sep : Char) (l : List Char) :
    ∀ p ∈ splitChars sep l, sep ∉ p := by
  induction l with
  | nil =>
    intro p hp
    simp [splitChars] at hp
    rw [hp]
    exact List.not_mem_nil _
  | cons c cs ih =>
    intro p hp
    unfold splitChars at hp
    by_cases hc : c = sep
    · rw [if_pos hc] at hp
      rcases List.mem_cons.mp hp with h | h
      · rw [h]; exact List.not_mem_nil _
      · exact ih p h
    · rw [if_neg hc] at hp
      cases hs : splitChars sep cs with
      | nil =>
        rw [hs] at hp
        simp at hp
        rw [hp]
        intro hm
        simp at hm
        exact hc hm.symm
      | cons q qs =>
        rw [hs] at hp ih
        rcases List.mem_cons.mp hp with h | h
        · rw [h]
          intro hm
          rcases List.mem_cons.mp hm with h1 | h1
          · exact hc h1.symm
          · exact ih q (List.mem_cons_self _ _) h1
        · exact ih p (List.mem_cons_of_mem _ h)

theorem splitChars_ne_nil (sep : Char) (l : List Char) : splitChars sep l ≠ [] := by
  cases l with
  | nil => simp [splitChars]
  | cons c cs =>
    unfold splitChars
    by_cases hc : c = sep
    · rw [if_pos hc]; exact List.cons_ne_nil _ _
    · rw [if_neg hc]
      cases splitChars sep cs <;> exact List.cons_ne_nil _ _

/-- The first token of a line holds no separator. -/
theorem first_token_no_sep (line : String) (sep : Char) :
    sep ∉ (nth (Split line sep) 0).data := by
  unfold nth Split
  cases hs : splitChars sep line.data with
  | nil => exact absurd hs (splitChars_ne_nil _ _)
  | cons p ps =>
    have hp := splitChars_pieces sep line.data p (by rw [hs]; exact List.mem_cons_self _ _)
    simpa using hp

/-- A TAKETHIS event for an id without blank splits into its verb and the id. -/
theorem Split_nntpTAKETHIS (id : String) (h : ' ' ∉ id.data) :
    Split (nntpTAKETHIS id) ' ' = ["TAKETHIS", id] := by
  unfold Split nntpTAKETHIS
  rw [String.data_append]
  have e : "TAKETHIS ".data = "TAKETHIS".data ++ ' ' :: [] := by decide
  rw [e, List.append_assoc]
  show List.map String.mk (splitChars ' ' ("TAKETHIS".data ++ ' ' :: id.data)) = _
  rw [splitChars_append_sep ' ' _ _ (by decide), splitChars_no_sep ' ' _ h]
  rfl

/-! ## C15: the reply code 238 -/

/-- C15. Under code 238, when the first token `id` of the line is a valid
message-id, `handleLine` appends exactly one event to the stream channel,
changes nothing else (nothing is written to the socket) and returns nil; the
event has `Command() = "TAKETHIS"` and `MessageID() = id`. When the token is
not a valid message-id the state is unchanged. -/
theorem handleLine_238 (u : Util) (w : World) (line : String) :
    (u.ValidMessageID (nth (Split line ' ') 0) = true →
      handleLine u w 238 line =
        ({ w with self := { w.self with
            stream := w.self.stream ++ [nntpTAKETHIS (nth (Split line ' ') 0)] } }, none) ∧
      (nntpTAKETHIS (nth (Split line ' ') 0)).Command = "TAKETHIS" ∧
      (nntpTAKETHIS (nth (Split line ' ') 0)).MessageID = some (nth (Split line ' ') 0)) ∧
    (u.ValidMessageID (nth (Split line ' ') 0) = false → handleLine u w 238 line = (w, none)) ∧
    (nntpTAKETHIS "<a@b>").Command = "TAKETHIS" ∧
    (nntpTAKETHIS "<a@b>").MessageID = some "<a@b>" := by
  have hsplit := Split_nntpTAKETHIS (nth (Split line ' ') 0) (first_token_no_sep line ' ')
  have h0 : ¬ ((238 : Int) = 0 ∧ (Split line ' ').length > 1) := fun h => absurd h.1 (by decide)
  refine ⟨fun hv => ⟨?_, ?_, ?_⟩, fun hv => ?_, by decide, by decide⟩
  · unfold handleLine
    simp only [h0, hv, ↓reduceIte]
  · unfold nntpStreamEvent.Command
    rw [hsplit]
    rfl
  · unfold nntpStreamEvent.MessageID
    rw [hsplit]
    rfl
  · unfold handleLine
    simp only [h0, hv, ↓reduceIte]
    rfl

/-- C15 at the reply `238 <a@b>`: one TAKETHIS event for `<a@b>` is queued. -/
theorem handleLine_238_witness :
    specUtil.ValidMessageID (nth (Split "<a@b>" ' ') 0) = true ∧
    (handleLine specUtil (sampleWorld emptyDatabase "STREAM" []) 238 "<a@b>").1.self.stream
      = ["TAKETHIS <a@b>"] ∧
    (handleLine specUtil (sampleWorld emptyDatabase "STREAM" []) 238 "<a@b>").1.conn.output
      = [] :=
  have h := ((handleLine_238 specUtil (sampleWorld emptyDatabase "STREAM" []) "<a@b>").1
    (by decide)).1
  ⟨by decide, by rw [h]; decide, by rw [h]; decide⟩

/-! ## C16: errors of `IterateAllArticles` -/

/-- C16, the code at the failing input: `IterateAllArticles` returns the error
of opening the directory and nothing else, so when the directory opens and
`Readdirnames` fails after two names the hook runs on both names and the
result is nil; `IterateAllForNewsgroup` returns that error. -/
theorem IterateAllArticles_drops_read_error :
    (∀ (self : ArticleStore) (fs : String → DirRead) (IsDir hook : String → Bool),
      (self.IterateAllArticles fs IsDir hook).2 = (fs self.directory).openErr) ∧
    (brokenListing "store").openErr = none ∧
    (brokenListing "store").readErr = some ⟨"input/output error"⟩ ∧
    (sampleDaemon emptyDatabase).store.IterateAllArticles brokenListing (fun _ => false)
        (fun _ => false) = (["<a@b>", "<c@d>"], none) ∧
    ((sampleDaemon emptyDatabase).store.IterateAllForNewsgroup brokenListing "overchan.test"
        (fun _ => false)).2 = some ⟨"input/output error"⟩ ∧
    ((sampleDaemon emptyDatabase).store.IterateAllArticles missingDirectory (fun _ => false)
        (fun _ => false)).2 = some ⟨"no such file or directory"⟩ := by
  refine ⟨fun self fs IsDir hook => ?_, by decide, by decide, by decide, by decide, by decide⟩
  unfold ArticleStore.IterateAllArticles
  simp only
  cases h : (fs self.directory).openErr <;> rfl

/-! ## C17: the slice `line[4:]` in the dispatch -/

theorem ReadLine_cons (c : Conn) (line : String) (rest : List String)
    (hc : c.closed = false) (hd : c.dot = false) (hi : c.input = line :: rest) :
    c.ReadLine = (line, none, { c with input := rest }) := by
  unfold Conn.ReadLine
  simp only [closeDot_of_dot_false c hd, hc, hi]
  rfl

/-- The dispatch of a line panics exactly when its first token is a 32-bit
integer and the line is shorter than four bytes. -/
theorem dispatchLine_panicked (u : Util) (w : World) (line : String) :
    (dispatchLine u w line).2 = Flow.panicked ↔
      (ParseInt32 (nth (Split line ' ') 0)).isSome = true ∧ line.length < 4 := by
  unfold dispatchLine
  simp only
  cases hp : ParseInt32 (nth (Split line ' ') 0) with
  | none => simp
  | some code =>
    unfold sliceFrom
    by_cases hl : 4 ≤ line.length
    · simp [hl]
    · simp [hl]
      omega

/-- C17. The dispatch of a received line in `runConnection` ends in the
out-of-range panic of `line[4:]` exactly when the first blank-separated token
of the line parses as a base-10 32-bit integer and the line is shorter than 4
bytes; every other line is handed to `handleLine`. This holds for the
dispatch itself and for a pass of the loop of `runConnection` that reads the
line, on a connection with a mode and on an inbound connection without one.
The lines `238` and `5 x` panic. -/
theorem dispatch_total_iff (u : Util) (w : World) (line : String) :
    ((dispatchLine u w line).2 = Flow.panicked ↔
      (ParseInt32 (nth (Split line ' ') 0)).isSome = true ∧ line.length < 4) ∧
    (∀ (inbound stream reader success : Bool) (preferMode : String) (rest : List String),
      w.conn.closed = false → w.conn.dot = false → w.conn.input = line :: rest →
      (w.self.mode ≠ "" ∨ inbound = true) →
      ((runConnectionStep u inbound stream reader preferMode w success).2.2 = Flow.panicked ↔
        (ParseInt32 (nth (Split line ' ') 0)).isSome = true ∧ line.length < 4)) ∧
    (dispatchLine u w "238").2 = Flow.panicked ∧
    (dispatchLine u w "5 x").2 = Flow.panicked := by
  refine ⟨dispatchLine_panicked u w line, ?_, ?_, ?_⟩
  · intro inbound stream reader success preferMode rest hc hd hi hmode
    have hread := ReadLine_cons w.conn line rest hc hd hi
    unfold runConnectionStep
    by_cases hm : w.self.mode = ""
    · have hin : inbound = true := by
        rcases hmode with h | h
        · exact absurd hm h
        · exact h
      rw [if_pos hm, if_pos hin, hread]
      simp only
      by_cases h0 : line.length = 0
      · rw [if_pos h0]
        have hline : line = "" := by
          cases line with
          | mk d =>
            cases d with
            | nil => rfl
            | cons c cs => simp [String.length] at h0
        subst hline
        simp
        decide
      rw [if_neg h0]
      by_cases hq : line = "QUIT"
      · rw [if_pos hq]
        subst hq
        simp
        decide
      rw [if_neg hq]
      by_cases hcap : nth (Split line ' ') 0 = "CAPABILITIES"
      · rw [if_pos hcap, hcap]
        have hpc : (ParseInt32 "CAPABILITIES").isSome = false := by decide
        rw [hpc]
        simp
      rw [if_neg hcap]
      by_cases hmo : nth (Split line ' ') 0 = "MODE"
      · rw [if_pos hmo, hmo]
        have hpm : (ParseInt32 "MODE").isSome = false := by decide
        rw [hpm]
        by_cases h2 : (Split line ' ').length = 2
        · rw [if_pos h2]
          by_cases hr : nth (Split line ' ') 1 = "READER"
          · rw [if_pos hr]; simp
          · rw [if_neg hr]
            by_cases hs : nth (Split line ' ') 1 = "STREAM"
            · rw [if_pos hs]; simp
            · rw [if_neg hs]; simp
        · rw [if_neg h2]; simp
      rw [if_neg hmo]
      exact dispatchLine_panicked u _ line
    · rw [if_neg hm, hread]
      exact dispatchLine_panicked u _ line
  · exact (dispatchLine_panicked u w "238").mpr (by decide)
  · exact (dispatchLine_panicked u w "5 x").mpr (by decide)

/-- C17 on a connection in STREAM mode: the line `238` makes the pass of the
loop panic, the line `238 <a@b>` does not. -/
theorem dispatch_total_iff_witness :
    (runConnectionStep specUtil true false false ""
        (sampleWorld emptyDatabase "STREAM" ["238", "CHECK <c@d>"]) false).2.2 = Flow.panicked ∧
    (runConnectionStep specUtil true false false ""
        (sampleWorld emptyDatabase "STREAM" ["238 <a@b>"]) false).2.2 ≠ Flow.panicked :=
  ⟨((dispatch_total_iff specUtil (sampleWorld emptyDatabase "STREAM" ["238", "CHECK <c@d>"])
      "238").2.1 true false false false "" ["CHECK <c@d>"] (by decide) (by decide) (by decide)
      (Or.inl (by decide))).mpr (by decide),
    fun h => absurd
      (((dispatch_total_iff specUtil (sampleWorld emptyDatabase "STREAM" ["238 <a@b>"])
        "238 <a@b>").2.1 true false false false "" [] (by decide) (by decide) (by decide)
        (Or.inl (by decide))).mp h).2 (by decide)⟩

/-! ## C18: the id used by the TAKETHIS handler -/

/-- C18. For every `TAKETHIS a` whose header is read and carries a Message-Id
`b` other than `a`: when the filter rejects with reason `r`, the ban record
`(a, r)` is persisted, the ban status of `b` is unchanged and the reply is
`439 a r`; when the filter admits, a sink is obtained and the body is read to
its end, the article is stored in a sink created under `a`, `a` is sent on
`infeed_load` and the reply is `239 a gotten`. -/
theorem handleLine_TAKETHIS_uses_argument (u : Util) (w : World) (line a : String)
    (rest : List String) (hdr : MIMEHeader) (c1 : Conn)
    (hparts : Split line ' ' = "TAKETHIS" :: a :: rest)
    (hread : w.conn.ReadMIMEHeader = (hdr, none, c1))
    (hne : hdr.Get "Message-Id" ≠ a) :
    ((checkMIMEHeader u w.daemon hdr).1 ≠ "" →
      (handleLine u w 0 line).1.daemon.database.bans
        = (a, (checkMIMEHeader u w.daemon hdr).1) :: w.daemon.database.bans ∧
      (handleLine u w 0 line).1.daemon.database.ArticleBanned (hdr.Get "Message-Id")
        = w.daemon.database.ArticleBanned (hdr.Get "Message-Id") ∧
      (handleLine u w 0 line).1.conn.output
        = w.conn.output ++ ["439 " ++ a ++ " " ++ (checkMIMEHeader u w.daemon hdr).1]) ∧
    ((checkMIMEHeader u w.daemon hdr).1 = "" →
      ∀ (store1 : ArticleStore) (after : List String),
        w.daemon.store.CreateTempFile a = some store1 →
        (dotBlock c1.input).2 = some after →
        (handleLine u w 0 line).1.daemon.store.temp.head?
          = some ⟨a, writeMIMEHeader hdr ++ (dotBlock c1.input).1, true⟩ ∧
        (handleLine u w 0 line).1.daemon.infeed_load = w.daemon.infeed_load ++ [a] ∧
        (handleLine u w 0 line).1.daemon.database = w.daemon.database ∧
        (handleLine u w 0 line).1.conn.output = w.conn.output ++ ["239 " ++ a ++ " gotten"]) := by
  rw [handleLine_of_TAKETHIS u w line a rest hparts]
  refine ⟨fun hreason => ?_, fun hreason store1 after hsink hbody => ?_⟩
  · rw [handleTAKETHIS_reject u w a hdr c1 hread hreason]
    refine ⟨rfl, ?_, rfl⟩
    simp [Database.ArticleBanned, Ne.symm hne]
  · rw [handleTAKETHIS_admitted u w a hdr c1 store1 after hread hreason hsink hbody]
    exact ⟨sink_after_store _ _ _ _ hsink, rfl, askRootPost_database u w.daemon hdr, rfl⟩

/-- C18 at `TAKETHIS <a@b>` carrying an article whose Message-Id is `<b@b>`:
in a reply to a banned thread `<a@b>` is banned and `<b@b>` is not; with
nothing banned the article is stored under `<a@b>`. -/
theorem handleLine_TAKETHIS_uses_argument_witness :
    ((handleLine specUtil (sampleWorld threadBannedDatabase "STREAM" otherIdArticle) 0
        "TAKETHIS <a@b>").1.daemon.database.bans
      = ("<a@b>", "thread banned") :: [("<root@x>", "spam")] ∧
    (handleLine specUtil (sampleWorld threadBannedDatabase "STREAM" otherIdArticle) 0
        "TAKETHIS <a@b>").1.daemon.database.ArticleBanned "<b@b>" = false) ∧
    ((handleLine specUtil (sampleWorld emptyDatabase "STREAM" otherIdArticle) 0
        "TAKETHIS <a@b>").1.daemon.store.temp.head?
      = some ⟨"<a@b>", writeMIMEHeader otherIdHeader ++ ["body"], true⟩ ∧
    (handleLine specUtil (sampleWorld emptyDatabase "STREAM" otherIdArticle) 0
        "TAKETHIS <a@b>").1.daemon.infeed_load = [] ++ ["<a@b>"]) :=
  have h1 := (handleLine_TAKETHIS_uses_argument specUtil
    (sampleWorld threadBannedDatabase "STREAM" otherIdArticle) "TAKETHIS <a@b>" "<a@b>"
    [] otherIdHeader bodyConn (by decide) (by decide) (by decide)).1 (by decide)
  have h2 := (handleLine_TAKETHIS_uses_argument specUtil
    (sampleWorld emptyDatabase "STREAM" otherIdArticle) "TAKETHIS <a@b>" "<a@b>"
    [] otherIdHeader bodyConn (by decide) (by decide) (by decide)).2 (by decide)
    { directory := "store", files := [], temp := [⟨"<a@b>", [], false⟩] }
    ["CHECK <c@d>"] (by decide) (by decide)
  ⟨⟨h1.1, h1.2.1.trans (by decide)⟩, ⟨h2.1, h2.2.1⟩⟩

/-! ## C19: POST without a Message-Id header -/

theorem handleLine_of_POST (u : Util) (w : World) (line a : String) (rest : List String)
    (h : Split line ' ' = "POST" :: a :: rest) :
    handleLine u w 0 line = (handlePOST u w a, none) := by
  rw [handleLine_command u w line _ _ _ h]
  simp

/-- C19. The filter's verdict does not depend on what is stored under the
literal key `Message-ID`. So for every POST whose submitted header is read,
has no Message-Id value and an empty References, with a valid unbanned group
and `ValidMessageID("")` false: the filter's reason on the header with the
generated id starts with "invalid reference or message id", the reply after
the 340 prompt is `441 Posting Failed`, and the daemon (store, database,
mailboxes) is unchanged. -/
theorem handleLine_POST_without_id (u : Util) (w : World) (line a : String)
    (rest : List String) (hdr : MIMEHeader) (c1 : Conn)
    (hparts : Split line ' ' = "POST" :: a :: rest)
    (hread : w.conn.ReadMIMEHeader = (hdr, none, c1))
    (hmsg : hdr.Get "Message-Id" = "") (href : hdr.Get "References" = "")
    (hv : u.ValidMessageID "" = false)
    (hng : u.newsgroupValidFormat (hdr.Get "Newsgroups") = true)
    (hnb : (w.daemon.database.NewsgroupBanned (hdr.Get "Newsgroups")).1 = false) :
    (∀ (h : MIMEHeader) (g : String),
      checkMIMEHeader u w.daemon (h.set "Message-ID" [g]) = checkMIMEHeader u w.daemon h) ∧
    HasPrefix (checkMIMEHeader u w.daemon
        (hdr.set "Message-ID" [u.genMessageID w.daemon.instance_name])).1
      "invalid reference or message id" = true ∧
    (handleLine u w 0 line).1.conn.output
      = w.conn.output ++ ["340 Post it; end with <CR-LF>.<CR-LF>", "441 Posting Failed"] ∧
    (handleLine u w 0 line).1.daemon = w.daemon := by
  have hv2 : u.ValidMessageID (hdr.Get "Message-Id") = false := by rw [hmsg]; exact hv
  have hc := checkMIMEHeader_invalid_id u w.daemon hdr href hng hnb hv2
  have hne : (checkMIMEHeader u w.daemon hdr).1 ≠ "" := by
    rw [hc]; exact invalid_reason_ne_empty _ _
  refine ⟨fun h g => checkMIMEHeader_set_Message_ID u w.daemon h [g], ?_, ?_, ?_⟩
  · rw [checkMIMEHeader_set_Message_ID, hc]
    exact invalid_reason_stem _ _
  · rw [handleLine_of_POST u w line a rest hparts, handlePOST_refused u w a hdr c1 hread hne]
  · rw [handleLine_of_POST u w line a rest hparts, handlePOST_refused u w a hdr c1 hread hne]

/-- C19 at `POST now` with a header without Message-Id: the reply is
`441 Posting Failed` and nothing reaches the store or `infeed_load`. -/
theorem handleLine_POST_without_id_witness :
    (handleLine specUtil (sampleWorld emptyDatabase "READER" bareArticle) 0
        "POST now").1.conn.output
      = [] ++ ["340 Post it; end with <CR-LF>.<CR-LF>", "441 Posting Failed"] ∧
    (handleLine specUtil (sampleWorld emptyDatabase "READER" bareArticle) 0
        "POST now").1.daemon = (sampleWorld emptyDatabase "READER" bareArticle).daemon :=
  have h := handleLine_POST_without_id specUtil (sampleWorld emptyDatabase "READER" bareArticle)
    "POST now" "now" [] bareHeader
    { input := ["hello", ".", "CHECK <c@d>"], output := [], closed := false, dot := false }
    (by decide) (by decide) (by decide) (by decide) (by decide) (by decide) (by decide)
  ⟨h.2.2.1, h.2.2.2⟩

/-! ## The overview row: auxiliary facts -/

end Srnd
